import Mathlib

/-!
OpenCSD "C" API (`decoder/source/c_api/ocsd_c_api.cpp`)

A shallow embedding of the C API layer of the OpenCSD trace decoder library.

* Pointers are natural numbers, `0` being the null pointer.  Every successful
  allocation yields a pointer that was never handed out before, so a pointer
  identifies one allocation.
* The program state holds the static registry `s_data_map`, the live decode
  trees, the allocation counter, and a trace of the calls made to the C++
  library and to `new` / `delete`.  "Released exactly once" is a statement
  about the number of `opDelete` events of an object in the trace.
* Results of C++ library calls whose code is outside this file (decoder
  managers, the memory accessor factory, ...) are supplied per call by an
  environment record.
* A C API function returns `none` when it dereferences a handle that is not a
  live decode tree, or reads outside an array (undefined behaviour in C++).
-/

namespace OpenCSD

/-! ## Basic types -/

/-- Decode tree handle, a `void *`: the address of the `DecodeTree`. -/
abbrev dcd_tree_handle_t := Nat

/-- The value `C_API_INVALID_TREE_HANDLE`, the null handle. -/
def C_API_INVALID_TREE_HANDLE : dcd_tree_handle_t := 0

/-- Address of a heap object; `0` is the null pointer. -/
abbrev ObjPtr := Nat

/-- Modelled from the spec: the library error codes, declared in a header outside
`ocsd_c_api.cpp`.  The codes this file names are listed;
`other` stands for any further code a C++ library call may return. -/
inductive ocsd_err_t where
  | OCSD_OK
  | OCSD_ERR_MEM
  | OCSD_ERR_NOT_INIT
  | OCSD_ERR_INVALID_ID
  | OCSD_ERR_INVALID_PARAM_VAL
  | OCSD_ERR_NO_PROTOCOL
  | other (code : Nat)
  deriving DecidableEq, Repr

/-- Modelled from the spec: the trace protocol tag, declared in a header outside
`ocsd_c_api.cpp`.  The four tags this file switches on are
listed; `other` stands for every other value of the enumeration. -/
inductive ocsd_trace_protocol_t where
  | OCSD_PROTOCOL_ETMV4I
  | OCSD_PROTOCOL_ETMV3
  | OCSD_PROTOCOL_PTM
  | OCSD_PROTOCOL_STM
  | other (tag : Nat)
  deriving DecidableEq, Repr

/-- Modelled from the spec: the callback role selector of
`ocsd_dt_attach_packet_callback`, declared in a header outside `ocsd_c_api.cpp`; `other` stands for every value that is neither role. -/
inductive ocsd_c_api_cb_types where
  | OCSD_C_API_CB_PKT_SINK
  | OCSD_C_API_CB_PKT_MON
  | other (v : Nat)
  deriving DecidableEq, Repr

/-- Modelled from the spec: the data path response codes, declared in a header
outside `ocsd_c_api.cpp`.  The code this file names is listed; `other` stands
for every response `DecodeTree::TraceDataIn` may return. -/
inductive ocsd_datapath_resp_t where
  | OCSD_RESP_FATAL_NOT_INIT
  | other (code : Nat)
  deriving DecidableEq, Repr

/-- Kind of accessor built by `TrcMemAccFactory`. -/
inductive AccKind where
  | file
  | buffer
  | callback
  deriving DecidableEq, Repr

/-- Dynamic class of an object allocated by this file or handed to it. -/
inductive ObjClass where
  | PktCBObj (protocol : ocsd_trace_protocol_t)
  | PktMonCBObj (protocol : ocsd_trace_protocol_t)
  | GenTraceElemCBObj
  | CSConfig
  | MemAccessor (kind : AccKind)
  deriving DecidableEq, Repr

/-- One entry of the `file_mem_region_t` array. -/
structure file_mem_region_t where
  start_address : Nat
  file_offset : Nat
  region_size : Nat
  deriving DecidableEq, Repr

/-- Calls observed on the heap and on the C++ library, in program order. -/
inductive Event where
  | opNew (p : ObjPtr) (cls : ObjClass)
  | opDelete (p : ObjPtr)
  | CreateDecodeTree (h : dcd_tree_handle_t)
  | DestroyDecodeTree (h : dcd_tree_handle_t)
  | createDecoder (h : dcd_tree_handle_t) (pConfig : ObjPtr)
  | attachPktSink (p : ObjPtr)
  | setGenTraceElemOutI (h : dcd_tree_handle_t) (p : ObjPtr)
  | createMemAccMapper (h : dcd_tree_handle_t)
  | CreateFileAccessor (a : ObjPtr) (startAddr offset size : Nat)
  | CreateBufferAccessor (a : ObjPtr) (address len : Nat)
  | CreateCBAccessor (a : ObjPtr) (st_address en_address mem_space : Nat)
  | DestroyAccessor (a : ObjPtr)
  | AddOffsetRange (a : ObjPtr) (startAddr size offset : Nat)
  | setMemSpace (a : ObjPtr) (mem_space : Nat)
  | setCBIfFn (a : ObjPtr)
  | addMemAccessorToMap (h : dcd_tree_handle_t) (a : ObjPtr)
  | removeMemAccessorByAddress (h : dcd_tree_handle_t) (st_address mem_space : Nat)
  | readRegion (idx : Nat)
  | TraceDataIn (h : dcd_tree_handle_t)
  | logMappedRanges (h : dcd_tree_handle_t)
  deriving DecidableEq, Repr

/-- The struct `lib_dt_data_list`: interface objects of one decode tree kept
for later disposal. -/
structure lib_dt_data_list where
  cb_objs : List ObjPtr
  deriving DecidableEq, Repr

/-- Modelled from the spec: the part of the `DecodeTree` class (declared
outside `ocsd_c_api.cpp`) that the C API reads and writes: the single
optional generic-element output sink (`0` when none is installed) and whether
the tree has a memory accessor map.  A new tree has neither. -/
structure DecodeTree where
  m_i_gen_elem_out : ObjPtr
  hasMemAccMapper : Bool
  deriving DecidableEq, Repr

/-- Modelled from the spec: what the C API reads of a `DecodeTreeElement`
(declared outside `ocsd_c_api.cpp`): the protocol of the decoder. -/
structure DecodeTreeElement where
  getProtocol : ocsd_trace_protocol_t
  deriving DecidableEq, Repr

/-- Program state seen by the C API. -/
structure State where
  s_data_map : dcd_tree_handle_t → Option lib_dt_data_list
  trees : dcd_tree_handle_t → Option DecodeTree
  next_obj : ObjPtr
  trace : List Event

/-- The state of a process that has not yet used the library. -/
def State.init : State :=
  { s_data_map := fun _ => none, trees := fun _ => none, next_obj := 0, trace := [] }

/-- Append one event to the trace. -/
def State.log (s : State) (e : Event) : State :=
  { s with trace := s.trace ++ [e] }

/-! ## Heap -/

/-- The expression `new (std::nothrow) T(...)`: null when the allocation fails
(`ok = false`), otherwise a pointer never returned before. -/
def new_nothrow (cls : ObjClass) (ok : Bool) (s : State) : ObjPtr × State :=
  if ok then
    (s.next_obj + 1,
      { s with next_obj := s.next_obj + 1,
               trace := s.trace ++ [Event.opNew (s.next_obj + 1) cls] })
  else (0, s)

/-- The statement `delete p` (a no-op on the null pointer). -/
def op_delete (p : ObjPtr) (s : State) : State :=
  if p = 0 then s else s.log (Event.opDelete p)

/-- An object is live when it was allocated and never deleted. -/
def State.live (s : State) (p : ObjPtr) : Bool :=
  s.trace.any (fun e => match e with
    | Event.opNew q _ => decide (q = p)
    | _ => false)
  && !(s.trace.contains (Event.opDelete p))

/-- Number of times `delete p` was executed. -/
def deleteCount (evs : List Event) (p : ObjPtr) : Nat :=
  evs.count (Event.opDelete p)

/-- The objects deleted by a run of events, in order. -/
def deletedObjs : List Event → List ObjPtr
  | [] => []
  | Event.opDelete p :: rest => p :: deletedObjs rest
  | _ :: rest => deletedObjs rest

/-! ## The registry `s_data_map` -/

/-- The call `s_data_map.insert(pair(handle, pList))`: a `std::map` keeps the
existing element when the key is already present. -/
def map_insert (m : dcd_tree_handle_t → Option lib_dt_data_list)
    (handle : dcd_tree_handle_t) (pList : lib_dt_data_list) :
    dcd_tree_handle_t → Option lib_dt_data_list :=
  fun k => if k = handle then (match m handle with
                               | some old => some old
                               | none => some pList)
           else m k

/-- The call `s_data_map.erase(it)` for the element with key `handle`. -/
def map_erase (m : dcd_tree_handle_t → Option lib_dt_data_list)
    (handle : dcd_tree_handle_t) : dcd_tree_handle_t → Option lib_dt_data_list :=
  fun k => if k = handle then none else m k

/-- The call `it->second->cb_objs.push_back(p)` on the element with key
`handle`. -/
def map_push_back (m : dcd_tree_handle_t → Option lib_dt_data_list)
    (handle : dcd_tree_handle_t) (p : ObjPtr) :
    dcd_tree_handle_t → Option lib_dt_data_list :=
  fun k => if k = handle then (match m handle with
                               | some l => some { cb_objs := l.cb_objs ++ [p] }
                               | none => none)
           else m k

/-! ## Decode tree creation and destruction -/

/-- Modelled from the spec: the static `DecodeTree::CreateDecodeTree` (outside
`ocsd_c_api.cpp`).  `newTree` is the pointer it returns: null on failure,
otherwise the address of a new tree with no output sink and no memory
accessor map. -/
def CreateDecodeTree (newTree : dcd_tree_handle_t) (s : State) : dcd_tree_handle_t × State :=
  if newTree = 0 then (0, s)
  else (newTree,
    { s with trees := fun k => if k = newTree then
                                 some { m_i_gen_elem_out := 0, hasMemAccMapper := false }
                               else s.trees k,
             trace := s.trace ++ [Event.CreateDecodeTree newTree] })

/-- Modelled from the spec: the static `DecodeTree::DestroyDecodeTree` (outside
`ocsd_c_api.cpp`): the tree stops being live. -/
def DestroyDecodeTree (handle : dcd_tree_handle_t) (s : State) : State :=
  { s with trees := fun k => if k = handle then none else s.trees k,
           trace := s.trace ++ [Event.DestroyDecodeTree handle] }

/-- The loop of `ocsd_destroy_dcd_tree` over `cb_objs`: `delete *itcb; itcb++`
from `begin()` to `end()`. -/
def delete_cb_objs : List ObjPtr → State → State
  | [], s => s
  | p :: rest, s => delete_cb_objs rest (s.log (Event.opDelete p))

/-- The function `ocsd_destroy_dcd_tree`. -/
def ocsd_destroy_dcd_tree (handle : dcd_tree_handle_t) (s : State) : Option State :=
  if handle ≠ C_API_INVALID_TREE_HANDLE then
    match s.trees handle with
    | none => none
    | some dt =>
      let pIf := dt.m_i_gen_elem_out
      let s1 := if pIf ≠ 0 then s.log (Event.opDelete pIf) else s
      let s2 :=
        match s1.s_data_map handle with
        | some lst =>
          let s3 := delete_cb_objs lst.cb_objs s1
          { s3 with s_data_map := map_erase s3.s_data_map handle }
        | none => s1
      some (DestroyDecodeTree handle s2)
  else some s

/-- The function `ocsd_create_dcd_tree`.  `newTree` is the result of
`DecodeTree::CreateDecodeTree`, `listOk` tells whether
`new (std::nothrow) lib_dt_data_list` succeeds. -/
def ocsd_create_dcd_tree (newTree : dcd_tree_handle_t) (listOk : Bool) (s : State) :
    Option (dcd_tree_handle_t × State) :=
  let r := CreateDecodeTree newTree s
  let handle := r.1
  let s1 := r.2
  if handle ≠ C_API_INVALID_TREE_HANDLE then
    if listOk then
      some (handle, { s1 with s_data_map := map_insert s1.s_data_map handle { cb_objs := [] } })
    else
      match ocsd_destroy_dcd_tree handle s1 with
      | none => none
      | some s2 => some (C_API_INVALID_TREE_HANDLE, s2)
  else some (handle, s1)

/-! ## Callback adapters -/

/-- The helper `ocsd_create_pkt_sink_cb`; the result carries `*ppCBObj`. -/
def ocsd_create_pkt_sink_cb (protocol : ocsd_trace_protocol_t) (allocOk : Bool) (s : State) :
    ocsd_err_t × ObjPtr × State :=
  let r : ocsd_err_t × ObjPtr × State :=
    match protocol with
    | .OCSD_PROTOCOL_ETMV4I =>
      let a := new_nothrow (.PktCBObj .OCSD_PROTOCOL_ETMV4I) allocOk s
      (.OCSD_OK, a.1, a.2)
    | .OCSD_PROTOCOL_ETMV3 =>
      let a := new_nothrow (.PktCBObj .OCSD_PROTOCOL_ETMV3) allocOk s
      (.OCSD_OK, a.1, a.2)
    | .OCSD_PROTOCOL_PTM =>
      let a := new_nothrow (.PktCBObj .OCSD_PROTOCOL_PTM) allocOk s
      (.OCSD_OK, a.1, a.2)
    | .OCSD_PROTOCOL_STM =>
      let a := new_nothrow (.PktCBObj .OCSD_PROTOCOL_STM) allocOk s
      (.OCSD_OK, a.1, a.2)
    | .other _ => (.OCSD_ERR_NO_PROTOCOL, 0, s)
  if r.2.1 = 0 ∧ r.1 = .OCSD_OK then (.OCSD_ERR_MEM, r.2.1, r.2.2) else r

/-- The helper `ocsd_create_pkt_mon_cb`; the result carries `*ppCBObj`. -/
def ocsd_create_pkt_mon_cb (protocol : ocsd_trace_protocol_t) (allocOk : Bool) (s : State) :
    ocsd_err_t × ObjPtr × State :=
  let r : ocsd_err_t × ObjPtr × State :=
    match protocol with
    | .OCSD_PROTOCOL_ETMV4I =>
      let a := new_nothrow (.PktMonCBObj .OCSD_PROTOCOL_ETMV4I) allocOk s
      (.OCSD_OK, a.1, a.2)
    | .OCSD_PROTOCOL_ETMV3 =>
      let a := new_nothrow (.PktMonCBObj .OCSD_PROTOCOL_ETMV3) allocOk s
      (.OCSD_OK, a.1, a.2)
    | .OCSD_PROTOCOL_PTM =>
      let a := new_nothrow (.PktMonCBObj .OCSD_PROTOCOL_PTM) allocOk s
      (.OCSD_OK, a.1, a.2)
    | .OCSD_PROTOCOL_STM =>
      let a := new_nothrow (.PktMonCBObj .OCSD_PROTOCOL_STM) allocOk s
      (.OCSD_OK, a.1, a.2)
    | .other _ => (.OCSD_ERR_NO_PROTOCOL, 0, s)
  if r.2.1 = 0 ∧ r.1 = .OCSD_OK then (.OCSD_ERR_MEM, r.2.1, r.2.2) else r

/-- Results of the C++ library calls made by one call of
`ocsd_dt_attach_packet_callback`: the element `getDecoderElement` finds for a
trace ID (`none` for a null pointer), whether the adapter allocation succeeds, and the
code `attachPktSink` returns. -/
structure AttachEnv where
  getDecoderElement : Nat → Option DecodeTreeElement
  allocOk : Bool
  attachPktSink : ocsd_err_t

/-- The function `ocsd_dt_attach_packet_callback`.  The result carries, next to
the returned error code, the final value of the local `pDataInSink`. -/
def ocsd_dt_attach_packet_callback (handle : dcd_tree_handle_t) (CSID : Nat)
    (callback_type : ocsd_c_api_cb_types) (env : AttachEnv) (s : State) :
    Option (ocsd_err_t × ObjPtr × State) :=
  match s.trees handle with
  | none => none
  | some _ =>
    match env.getDecoderElement CSID with
    | none => some (.OCSD_ERR_INVALID_ID, 0, s)
    | some pElem =>
      let r : ocsd_err_t × ObjPtr × State :=
        match callback_type with
        | .OCSD_C_API_CB_PKT_SINK => ocsd_create_pkt_sink_cb pElem.getProtocol env.allocOk s
        | .OCSD_C_API_CB_PKT_MON => ocsd_create_pkt_mon_cb pElem.getProtocol env.allocOk s
        | .other _ => (.OCSD_ERR_INVALID_PARAM_VAL, 0, s)
      let pDataInSink := r.2.1
      if r.1 = .OCSD_OK then
        let s1 := r.2.2.log (Event.attachPktSink pDataInSink)
        let err := env.attachPktSink
        if err = .OCSD_OK then
          match s1.s_data_map handle with
          | some _ =>
            some (err, pDataInSink,
              { s1 with s_data_map := map_push_back s1.s_data_map handle pDataInSink })
          | none => some (err, pDataInSink, s1)
        else some (err, pDataInSink, s1)
      else some (r.1, pDataInSink, r.2.2)

/-! ## Generic element output -/

/-- Modelled from the spec: the setter `DecodeTree::setGenTraceElemOutI`
(outside `ocsd_c_api.cpp`) installs the sink in the tree.  The tree does not
free a sink: `ocsd_destroy_dcd_tree` deletes the object that
`getGenTraceElemOutI` returns and only then destroys the tree. -/
def setGenTraceElemOutI (handle : dcd_tree_handle_t) (dt : DecodeTree) (p : ObjPtr)
    (s : State) : State :=
  { s with trees := fun k => if k = handle then some { dt with m_i_gen_elem_out := p }
                             else s.trees k,
           trace := s.trace ++ [Event.setGenTraceElemOutI handle p] }

/-- The function `ocsd_dt_set_gen_elem_outfn`; `allocOk` tells whether
`new (std::nothrow) GenTraceElemCBObj` succeeds. -/
def ocsd_dt_set_gen_elem_outfn (handle : dcd_tree_handle_t) (allocOk : Bool) (s : State) :
    Option (ocsd_err_t × State) :=
  let a := new_nothrow .GenTraceElemCBObj allocOk s
  let pCBObj := a.1
  if pCBObj ≠ 0 then
    match a.2.trees handle with
    | none => none
    | some dt => some (.OCSD_OK, setGenTraceElemOutI handle dt pCBObj a.2)
  else some (.OCSD_ERR_MEM, a.2)

/-! ## Decoder creation -/

/-- Results of the C++ library calls made by one call of
`ocsd_dt_create_decoder`: the code of `getDecoderMngrByName`, the code of
`createConfigFromDataStruct`, the trace ID held by the configuration it
builds, and the code of `DecodeTree::createDecoder`. -/
structure CreateDecoderEnv where
  getDecoderMngrByName : ocsd_err_t
  createConfigFromDataStruct : ocsd_err_t
  getTraceID : Nat
  createDecoder : ocsd_err_t
  deriving DecidableEq, Repr

/-- Modelled from the spec: `IDecoderMngr::createConfigFromDataStruct` (outside
`ocsd_c_api.cpp`) either builds a configuration object, stores it in
`*pConfig` and returns `OCSD_OK`, or fails, leaving `*pConfig` null. -/
def createConfigFromDataStruct (env : CreateDecoderEnv) (s : State) :
    ocsd_err_t × ObjPtr × State :=
  if env.createConfigFromDataStruct = .OCSD_OK then
    let a := new_nothrow .CSConfig true s
    (.OCSD_OK, a.1, a.2)
  else (env.createConfigFromDataStruct, 0, s)

/-- The function `ocsd_dt_create_decoder`.  The second component of the result
is the value written to `*pCSID`, `none` when nothing is written. -/
def ocsd_dt_create_decoder (handle : dcd_tree_handle_t) (env : CreateDecoderEnv) (s : State) :
    Option (ocsd_err_t × Option Nat × State) :=
  let err := env.getDecoderMngrByName
  if err ≠ .OCSD_OK then some (err, none, s)
  else
    let c := createConfigFromDataStruct env s
    let err := c.1
    let pConfig := c.2.1
    let s1 := c.2.2
    if err ≠ .OCSD_OK then some (err, none, s1)
    else
      match s1.trees handle with
      | none => none
      | some _ =>
        let s2 := s1.log (Event.createDecoder handle pConfig)
        let err := env.createDecoder
        let written := if err = .OCSD_OK then some env.getTraceID else none
        some (err, written, op_delete pConfig s2)

/-- The function `ocsd_dt_remove_decoder`; `removeDecoder` is the code the tree
returns. -/
def ocsd_dt_remove_decoder (handle : dcd_tree_handle_t) (removeDecoder : ocsd_err_t)
    (s : State) : Option (ocsd_err_t × State) :=
  match s.trees handle with
  | none => none
  | some _ => some (removeDecoder, s)

/-! ## Memory accessors -/

/-- Results of the C++ library calls made by one memory accessor operation:
the code of `createMemAccMapper`, the code of the `TrcMemAccFactory` creation
function, whether the `dynamic_cast` to the expected accessor class yields a
non-null pointer, and the code of `addMemAccessorToMap`. -/
structure MemAccEnv where
  createMemAccMapper : ocsd_err_t
  createAccessor : ocsd_err_t
  castOk : Bool
  addMemAccessorToMap : ocsd_err_t
  deriving DecidableEq, Repr

/-- Modelled from the spec: `DecodeTree::createMemAccMapper` (outside
`ocsd_c_api.cpp`): on `OCSD_OK` the tree has a memory accessor map. -/
def createMemAccMapper (handle : dcd_tree_handle_t) (dt : DecodeTree) (res : ocsd_err_t)
    (s : State) : ocsd_err_t × State :=
  let s1 := s.log (Event.createMemAccMapper handle)
  if res = .OCSD_OK then
    (res, { s1 with trees := fun k => if k = handle then some { dt with hasMemAccMapper := true }
                                      else s1.trees k })
  else (res, s1)

/-- The common opening of the accessor operations:
`if(!pDT->hasMemAccMapper()) err = pDT->createMemAccMapper();`. -/
def ensure_mapper (handle : dcd_tree_handle_t) (dt : DecodeTree) (env : MemAccEnv)
    (s : State) : ocsd_err_t × State :=
  if !dt.hasMemAccMapper then createMemAccMapper handle dt env.createMemAccMapper s
  else (.OCSD_OK, s)

/-- Modelled from the spec: a `TrcMemAccFactory` creation function (outside
`ocsd_c_api.cpp`) either builds an accessor, stores it in `*pAccessor` and
returns `OCSD_OK`, or fails without building one.  `ev` is the event recording
the arguments, given the new accessor. -/
def create_accessor (kind : AccKind) (res : ocsd_err_t) (ev : ObjPtr → Event) (s : State) :
    ocsd_err_t × ObjPtr × State :=
  if res = .OCSD_OK then
    let a := new_nothrow (.MemAccessor kind) true s
    (.OCSD_OK, a.1, a.2.log (ev a.1))
  else (res, 0, s)

/-- The function `ocsd_dt_add_binfile_mem_acc`. -/
def ocsd_dt_add_binfile_mem_acc (handle : dcd_tree_handle_t) (address mem_space : Nat)
    (env : MemAccEnv) (s : State) : Option (ocsd_err_t × State) :=
  if handle ≠ C_API_INVALID_TREE_HANDLE then
    match s.trees handle with
    | none => none
    | some pDT =>
      let m := ensure_mapper handle pDT env s
      if m.1 = .OCSD_OK then
        let c := create_accessor .file env.createAccessor
          (fun a => Event.CreateFileAccessor a address 0 0) m.2
        let p_accessor := c.2.1
        if c.1 = .OCSD_OK then
          let r : ocsd_err_t × State :=
            if env.castOk then
              (env.addMemAccessorToMap,
                (c.2.2.log (Event.setMemSpace p_accessor mem_space)).log
                  (Event.addMemAccessorToMap handle p_accessor))
            else (.OCSD_ERR_MEM, c.2.2)
          if r.1 ≠ .OCSD_OK then some (r.1, r.2.log (Event.DestroyAccessor p_accessor))
          else some (r.1, r.2)
        else some (c.1, c.2.2)
      else some (m.1, m.2)
  else some (.OCSD_ERR_INVALID_PARAM_VAL, s)

/-- The loop of `ocsd_dt_add_binfile_region_mem_acc`:
`while(curr_region_idx < num_regions) { AddOffsetRange(...); curr_region_idx++; }`.
`fuel` is the number of iterations left, `num_regions - curr_region_idx`. -/
def add_offset_ranges (pAcc : ObjPtr) (region_array : List file_mem_region_t) :
    Nat → Nat → State → Option State
  | 0, _, s => some s
  | fuel + 1, curr_region_idx, s =>
    match region_array.get? curr_region_idx with
    | none => none
    | some r =>
      add_offset_ranges pAcc region_array fuel (curr_region_idx + 1)
        ((s.log (Event.readRegion curr_region_idx)).log
          (Event.AddOffsetRange pAcc r.start_address r.region_size r.file_offset))

/-- The function `ocsd_dt_add_binfile_region_mem_acc`.  `region_array` is
`none` for a null pointer, otherwise the array it points to. -/
def ocsd_dt_add_binfile_region_mem_acc (handle : dcd_tree_handle_t)
    (region_array : Option (List file_mem_region_t)) (num_regions : Int) (mem_space : Nat)
    (env : MemAccEnv) (s : State) : Option (ocsd_err_t × State) :=
  match region_array with
  | none => some (.OCSD_ERR_INVALID_PARAM_VAL, s)
  | some arr =>
    if handle ≠ C_API_INVALID_TREE_HANDLE ∧ num_regions ≠ 0 then
      match s.trees handle with
      | none => none
      | some pDT =>
        let m := ensure_mapper handle pDT env s
        if m.1 = .OCSD_OK then
          let curr_region_idx : Nat := 0
          match arr.get? curr_region_idx with
          | none => none
          | some r0 =>
            let c := create_accessor .file env.createAccessor
              (fun a => Event.CreateFileAccessor a r0.start_address r0.file_offset r0.region_size)
              (m.2.log (Event.readRegion curr_region_idx))
            let p_accessor := c.2.1
            if c.1 = .OCSD_OK then
              if env.castOk then
                let curr_region_idx := curr_region_idx + 1
                match add_offset_ranges p_accessor arr (num_regions - curr_region_idx).toNat
                    curr_region_idx c.2.2 with
                | none => none
                | some s3 =>
                  let s4 := (s3.log (Event.setMemSpace p_accessor mem_space)).log
                    (Event.addMemAccessorToMap handle p_accessor)
                  let err := env.addMemAccessorToMap
                  if err ≠ .OCSD_OK then some (err, s4.log (Event.DestroyAccessor p_accessor))
                  else some (err, s4)
              else some (.OCSD_ERR_MEM, c.2.2.log (Event.DestroyAccessor p_accessor))
            else some (c.1, c.2.2)
        else some (m.1, m.2)
    else some (.OCSD_ERR_INVALID_PARAM_VAL, s)

/-- The function `ocsd_dt_add_buffer_mem_acc`. -/
def ocsd_dt_add_buffer_mem_acc (handle : dcd_tree_handle_t) (address mem_space : Nat)
    (mem_length : Nat) (env : MemAccEnv) (s : State) : Option (ocsd_err_t × State) :=
  if handle ≠ C_API_INVALID_TREE_HANDLE then
    match s.trees handle with
    | none => none
    | some pDT =>
      let m := ensure_mapper handle pDT env s
      if m.1 = .OCSD_OK then
        let c := create_accessor .buffer env.createAccessor
          (fun a => Event.CreateBufferAccessor a address mem_length) m.2
        let p_accessor := c.2.1
        if c.1 = .OCSD_OK then
          let r : ocsd_err_t × State :=
            if env.castOk then
              (env.addMemAccessorToMap,
                (c.2.2.log (Event.setMemSpace p_accessor mem_space)).log
                  (Event.addMemAccessorToMap handle p_accessor))
            else (.OCSD_ERR_MEM, c.2.2)
          if r.1 ≠ .OCSD_OK then some (r.1, r.2.log (Event.DestroyAccessor p_accessor))
          else some (r.1, r.2)
        else some (c.1, c.2.2)
      else some (m.1, m.2)
  else some (.OCSD_ERR_INVALID_PARAM_VAL, s)

/-- The function `ocsd_dt_add_callback_mem_acc`. -/
def ocsd_dt_add_callback_mem_acc (handle : dcd_tree_handle_t)
    (st_address en_address mem_space : Nat) (env : MemAccEnv) (s : State) :
    Option (ocsd_err_t × State) :=
  if handle ≠ C_API_INVALID_TREE_HANDLE then
    match s.trees handle with
    | none => none
    | some pDT =>
      let m := ensure_mapper handle pDT env s
      if m.1 = .OCSD_OK then
        let c := create_accessor .callback env.createAccessor
          (fun a => Event.CreateCBAccessor a st_address en_address mem_space) m.2
        let p_accessor := c.2.1
        if c.1 = .OCSD_OK then
          let r : ocsd_err_t × State :=
            if env.castOk then
              (env.addMemAccessorToMap,
                (c.2.2.log (Event.setCBIfFn p_accessor)).log
                  (Event.addMemAccessorToMap handle p_accessor))
            else (.OCSD_ERR_MEM, c.2.2)
          if r.1 ≠ .OCSD_OK then some (r.1, r.2.log (Event.DestroyAccessor p_accessor))
          else some (r.1, r.2)
        else some (c.1, c.2.2)
      else some (m.1, m.2)
  else some (.OCSD_ERR_INVALID_PARAM_VAL, s)

/-- The function `ocsd_dt_remove_mem_acc`; `removeRes` is the code of
`removeMemAccessorByAddress`. -/
def ocsd_dt_remove_mem_acc (handle : dcd_tree_handle_t) (st_address mem_space : Nat)
    (removeRes : ocsd_err_t) (s : State) : Option (ocsd_err_t × State) :=
  if handle ≠ C_API_INVALID_TREE_HANDLE then
    match s.trees handle with
    | none => none
    | some pDT =>
      if !pDT.hasMemAccMapper then some (.OCSD_ERR_INVALID_PARAM_VAL, s)
      else some (removeRes, s.log (Event.removeMemAccessorByAddress handle st_address mem_space))
  else some (.OCSD_ERR_INVALID_PARAM_VAL, s)

/-! ## Packet to string -/

/-- Memory reachable from a `char *`: the byte at each offset. -/
abbrev CharBuf := Nat → Nat

/-- The C library `strncpy(dest, src, n)` where `src` is the `c_str()` of a
string with bytes `str`: the bytes of `str` before its first NUL are copied, at
most `n` of them, and the rest of the first `n` bytes of `dest` is filled with
NUL. -/
def strncpy (dest : CharBuf) (str : List Nat) (n : Nat) : CharBuf :=
  fun i => if i < n then (str.takeWhile (fun c => c ≠ 0)).getD i 0 else dest i

/-- The assignment `buffer[idx] = val`. -/
def buf_set (buffer : CharBuf) (idx val : Nat) : CharBuf :=
  fun i => if i = idx then val else buffer i

/-- The function `ocsd_pkt_str`.  `printed` is the text `trcPrintElemToString`
yields for the packet; `buffer` is `none` for a null pointer.  The result
carries the buffer after the call. -/
def ocsd_pkt_str (pkt_protocol : ocsd_trace_protocol_t) (printed : List Nat)
    (buffer : Option CharBuf) (buffer_size : Int) : ocsd_err_t × Option CharBuf :=
  match buffer with
  | none => (.OCSD_ERR_INVALID_PARAM_VAL, none)
  | some buf =>
    if buffer_size < 2 then (.OCSD_ERR_INVALID_PARAM_VAL, some buf)
    else
      let buf1 := buf_set buf 0 0
      let r : ocsd_err_t × List Nat :=
        match pkt_protocol with
        | .OCSD_PROTOCOL_ETMV4I => (.OCSD_OK, printed)
        | .OCSD_PROTOCOL_ETMV3 => (.OCSD_OK, printed)
        | .OCSD_PROTOCOL_STM => (.OCSD_OK, printed)
        | .OCSD_PROTOCOL_PTM => (.OCSD_OK, printed)
        | .other _ => (.OCSD_ERR_NO_PROTOCOL, [])
      let pktStr := r.2
      if pktStr.length > 0 then
        (r.1, some (buf_set (strncpy buf1 pktStr (buffer_size - 1).toNat)
                      (buffer_size - 1).toNat 0))
      else (r.1, some buf1)

/-- The function `ocsd_dt_process_data`.  `traceDataIn` is what
`DecodeTree::TraceDataIn` returns and the count it stores through
`numBytesProcessed` (`none` when it stores nothing).  The second component of
the result is the value written to `*numBytesProcessed`, `none` when nothing
is written. -/
def ocsd_dt_process_data (handle : dcd_tree_handle_t)
    (traceDataIn : ocsd_datapath_resp_t × Option Nat) (s : State) :
    Option (ocsd_datapath_resp_t × Option Nat × State) :=
  if handle ≠ C_API_INVALID_TREE_HANDLE then
    match s.trees handle with
    | none => none
    | some _ => some (traceDataIn.1, traceDataIn.2, s.log (Event.TraceDataIn handle))
  else some (.OCSD_RESP_FATAL_NOT_INIT, none, s)

/-- The function `ocsd_tl_log_mapped_mem_ranges`. -/
def ocsd_tl_log_mapped_mem_ranges (handle : dcd_tree_handle_t) (s : State) : Option State :=
  if handle ≠ C_API_INVALID_TREE_HANDLE then
    match s.trees handle with
    | none => none
    | some _ => some (s.log (Event.logMappedRanges handle))
  else some s

/-! ## Call sequences -/

/-- One call of `ocsd_dt_attach_packet_callback` made by a client: its
arguments and the results of the library calls it makes. -/
structure AttachCall where
  CSID : Nat
  callback_type : ocsd_c_api_cb_types
  env : AttachEnv

/-- A client calling `ocsd_dt_attach_packet_callback` on `handle` once per
element of the list, in order.  The result lists, per call, the returned code
and the adapter the call built (null when it built none). -/
def run_attach_calls (handle : dcd_tree_handle_t) :
    List AttachCall → State → Option (List (ocsd_err_t × ObjPtr) × State)
  | [], s => some ([], s)
  | c :: cs, s =>
    match ocsd_dt_attach_packet_callback handle c.CSID c.callback_type c.env s with
    | none => none
    | some r =>
      match run_attach_calls handle cs r.2.2 with
      | none => none
      | some rest => some ((r.1, r.2.1) :: rest.1, rest.2)

/-- The adapters of the calls that returned `OCSD_OK`, in call order. -/
def okAdapters : List (ocsd_err_t × ObjPtr) → List ObjPtr
  | [] => []
  | (err, p) :: rest => if err = .OCSD_OK then p :: okAdapters rest else okAdapters rest

/-! ## Sample inputs -/

/-- An environment in which the decoder with trace ID `CSID` exists, speaks
`protocol`, and the library calls return the given results. -/
def mkAttachEnv (protocol : ocsd_trace_protocol_t) (allocOk : Bool) (attachRes : ocsd_err_t) :
    AttachEnv :=
  { getDecoderElement := fun _ => some { getProtocol := protocol },
    allocOk := allocOk, attachPktSink := attachRes }

/-- Four attach calls: an accepted packet sink, a monitor on an unsupported
protocol, a sink the decoder manager refuses, and an accepted monitor. -/
def sampleCalls : List AttachCall :=
  [ { CSID := 16, callback_type := .OCSD_C_API_CB_PKT_SINK,
      env := mkAttachEnv .OCSD_PROTOCOL_ETMV4I true .OCSD_OK },
    { CSID := 17, callback_type := .OCSD_C_API_CB_PKT_MON,
      env := mkAttachEnv (.other 3) true .OCSD_OK },
    { CSID := 18, callback_type := .OCSD_C_API_CB_PKT_SINK,
      env := mkAttachEnv .OCSD_PROTOCOL_PTM true .OCSD_ERR_INVALID_PARAM_VAL },
    { CSID := 19, callback_type := .OCSD_C_API_CB_PKT_MON,
      env := mkAttachEnv .OCSD_PROTOCOL_STM true .OCSD_OK } ]

/-- The state after `ocsd_create_dcd_tree` returned the handle `1` in a fresh
process. -/
def stateWithTree : State :=
  { s_data_map := fun k => if k = 1 then some { cb_objs := [] } else none,
    trees := fun k => if k = 1 then some { m_i_gen_elem_out := 0, hasMemAccMapper := false }
                      else none,
    next_obj := 0,
    trace := [Event.CreateDecodeTree 1] }

/-- A state with the live tree `1` that has no registry entry (a tree that was
not created through `ocsd_create_dcd_tree`). -/
def stateUnregisteredTree : State :=
  { s_data_map := fun _ => none,
    trees := fun k => if k = 1 then some { m_i_gen_elem_out := 0, hasMemAccMapper := false }
                      else none,
    next_obj := 0,
    trace := [] }

/-- The state after an accepted ETMv4 packet sink was attached to decoder 16 of
tree `1` in `stateWithTree` (left as it is should the call not return). -/
def stateAfterAttach : State :=
  match ocsd_dt_attach_packet_callback 1 16 .OCSD_C_API_CB_PKT_SINK
      (mkAttachEnv .OCSD_PROTOCOL_ETMV4I true .OCSD_OK) stateWithTree with
  | some r => r.2.2
  | none => stateWithTree

/-- The four protocols the adapter factories and `ocsd_pkt_str` switch on. -/
def supportedProtocols : List ocsd_trace_protocol_t :=
  [.OCSD_PROTOCOL_ETMV4I, .OCSD_PROTOCOL_ETMV3, .OCSD_PROTOCOL_PTM, .OCSD_PROTOCOL_STM]

/-- A client that installs a generic element sink on `handle` twice and then
destroys the tree.  The result lists the two returned codes, whether the
first and the second sink object are live after the second call, whether they
are live after the destruction, and the objects the destruction deleted. -/
def replaceSinkScenario (handle : dcd_tree_handle_t) (s : State) :
    Option (ocsd_err_t × ocsd_err_t × Bool × Bool × Bool × Bool × List ObjPtr) :=
  match ocsd_dt_set_gen_elem_outfn handle true s with
  | none => none
  | some r1 =>
    match ocsd_dt_set_gen_elem_outfn handle true r1.2 with
    | none => none
    | some r2 =>
      match ocsd_destroy_dcd_tree handle r2.2 with
      | none => none
      | some s3 =>
        some (r1.1, r2.1, r2.2.live r1.2.next_obj, r2.2.live r2.2.next_obj,
          s3.live r1.2.next_obj, s3.live r2.2.next_obj,
          deletedObjs (s3.trace.drop r2.2.trace.length))

/-- Library results for a decoder creation in which every step succeeds and
the configuration carries trace ID `0x10`. -/
def createDecoderOk : CreateDecoderEnv :=
  { getDecoderMngrByName := .OCSD_OK, createConfigFromDataStruct := .OCSD_OK,
    getTraceID := 0x10, createDecoder := .OCSD_OK }

/-- The events the loop `add_offset_ranges` appends when every index it reads
is inside the array. -/
def offset_range_events (pAcc : ObjPtr) (region_array : List file_mem_region_t) :
    Nat → Nat → List Event
  | 0, _ => []
  | fuel + 1, curr_region_idx =>
    match region_array.get? curr_region_idx with
    | none => []
    | some r =>
      Event.readRegion curr_region_idx ::
        Event.AddOffsetRange pAcc r.start_address r.region_size r.file_offset ::
          offset_range_events pAcc region_array fuel (curr_region_idx + 1)

/-- Outcome of an accessor operation, starting in state `s`, once the accessor
factory has succeeded: the call returns; the accessor the factory built is
the object `s.next_obj + 1`; it is destroyed exactly once when the call
returns an error and not at all when it returns `OCSD_OK`; no other accessor
is destroyed; an error is returned exactly when the accessor has the wrong
type (`OCSD_ERR_MEM`) or `addMemAccessorToMap` fails (its code); on `OCSD_OK`
the accessor was handed to the map of the tree. -/
def AccessorOutcome (handle : dcd_tree_handle_t) (env : MemAccEnv) (s : State)
    (res : Option (ocsd_err_t × State)) : Prop :=
  ∃ err s1 evs, res = some (err, s1) ∧ s1.trace = s.trace ++ evs ∧
    (∃ kind, Event.opNew (s.next_obj + 1) (.MemAccessor kind) ∈ evs) ∧
    evs.count (Event.DestroyAccessor (s.next_obj + 1)) = (if err = .OCSD_OK then 0 else 1) ∧
    (∀ b, b ≠ s.next_obj + 1 → Event.DestroyAccessor b ∉ evs) ∧
    (err ≠ .OCSD_OK ↔ (env.castOk = false ∨ env.addMemAccessorToMap ≠ .OCSD_OK)) ∧
    (env.castOk = false → err = .OCSD_ERR_MEM) ∧
    (env.castOk = true → err = env.addMemAccessorToMap) ∧
    (err = .OCSD_OK → Event.addMemAccessorToMap handle (s.next_obj + 1) ∈ evs) ∧
    (err ≠ .OCSD_OK → evs.getLast? = some (Event.DestroyAccessor (s.next_obj + 1)))

/-- Library results for an accessor operation in which the map creation, the
factory and the cast succeed and `addMemAccessorToMap` fails. -/
def memAccAddFails : MemAccEnv :=
  { createMemAccMapper := .OCSD_OK, createAccessor := .OCSD_OK, castOk := true,
    addMemAccessorToMap := .other 7 }

/-- Two regions of one file. -/
def sampleRegions : List file_mem_region_t :=
  [ { start_address := 0x1000, file_offset := 0, region_size := 0x100 },
    { start_address := 0x8000, file_offset := 0x100, region_size := 0x40 } ]

/-- Outcome of an accessor `add` operation, starting in state `s` on a tree
that has no memory accessor map: the call returns and its first library call
is `createMemAccMapper`; when that succeeds the tree has a map afterwards and
the operation goes on to the factory and, the accessor being built with the
expected type, hands it to `addMemAccessorToMap`, whose code it returns; when
the map creation fails its code is returned and nothing else is done. -/
def MapCreatedFirst (handle : dcd_tree_handle_t) (env : MemAccEnv) (s : State)
    (res : Option (ocsd_err_t × State)) : Prop :=
  ∃ err s1 evs, res = some (err, s1) ∧
    s1.trace = s.trace ++ Event.createMemAccMapper handle :: evs ∧
    (env.createMemAccMapper = .OCSD_OK →
      (s1.trees handle).map (fun d => d.hasMemAccMapper) = some true ∧
      (env.createAccessor = .OCSD_OK → env.castOk = true →
        Event.addMemAccessorToMap handle (s.next_obj + 1) ∈ evs ∧
        err = env.addMemAccessorToMap)) ∧
    (env.createMemAccMapper ≠ .OCSD_OK →
      err = env.createMemAccMapper ∧ evs = [] ∧ s1.trees = s.trees)

/-- Library results for an accessor operation in which every step succeeds. -/
def memAccOk : MemAccEnv :=
  { createMemAccMapper := .OCSD_OK, createAccessor := .OCSD_OK, castOk := true,
    addMemAccessorToMap := .OCSD_OK }

/-- A buffer holding the text "junk" without a terminating NUL in its first
four bytes, every further byte being `0x55`. -/
def junkBuffer : CharBuf :=
  fun i => [0x6a, 0x75, 0x6e, 0x6b].getD i 0x55

/-! ## Readings of the trace -/

/-- Modelled from the spec: the parameter lists of
`TrcMemAccFactory::CreateFileAccessor` (accessor, path, start address, offset,
size) and `TrcMemAccessorFile::AddOffsetRange` (start address, size, offset),
both declared outside `ocsd_c_api.cpp`.  The function lists the address ranges
registered with file accessors, in order: the accessor and the (start address,
file offset, size) of the range; the first range of an accessor comes from
`CreateFileAccessor`, the later ones from `AddOffsetRange`. -/
def registered_ranges : List Event → List (ObjPtr × file_mem_region_t)
  | [] => []
  | Event.CreateFileAccessor a st off sz :: rest =>
    (a, { start_address := st, file_offset := off, region_size := sz }) ::
      registered_ranges rest
  | Event.AddOffsetRange a st sz off :: rest =>
    (a, { start_address := st, file_offset := off, region_size := sz }) ::
      registered_ranges rest
  | _ :: rest => registered_ranges rest

/-- The indices at which `region_array` was read, in order. -/
def region_reads : List Event → List Nat
  | [] => []
  | Event.readRegion i :: rest => i :: region_reads rest
  | _ :: rest => region_reads rest

/-- The calls of `addMemAccessorToMap`, in order: the tree and the accessor. -/
def map_adds : List Event → List (dcd_tree_handle_t × ObjPtr)
  | [] => []
  | Event.addMemAccessorToMap h a :: rest => (h, a) :: map_adds rest
  | _ :: rest => map_adds rest

/-- The objects allocated, in order, with their class. -/
def new_objs : List Event → List (ObjPtr × ObjClass)
  | [] => []
  | Event.opNew p cls :: rest => (p, cls) :: new_objs rest
  | _ :: rest => new_objs rest

/-- The calls of `setMemSpace`, in order: the accessor and the memory space. -/
def mem_space_bindings : List Event → List (ObjPtr × Nat)
  | [] => []
  | Event.setMemSpace a ms :: rest => (a, ms) :: mem_space_bindings rest
  | _ :: rest => mem_space_bindings rest

/-! ## Lemmas on the trace -/

theorem deletedObjs_append (xs ys : List Event) :
    deletedObjs (xs ++ ys) = deletedObjs xs ++ deletedObjs ys := by
  induction xs with
  | nil => rfl
  | cons e rest ih => cases e <;> simp [deletedObjs, ih]

theorem deletedObjs_map_opDelete (l : List ObjPtr) :
    deletedObjs (l.map Event.opDelete) = l := by
  induction l with
  | nil => rfl
  | cons p rest ih => simp [deletedObjs, ih]

theorem delete_cb_objs_trace (l : List ObjPtr) (s : State) :
    (delete_cb_objs l s).trace = s.trace ++ l.map Event.opDelete := by
  induction l generalizing s with
  | nil => simp [delete_cb_objs]
  | cons p rest ih => simp [delete_cb_objs, ih, State.log]

theorem delete_cb_objs_s_data_map (l : List ObjPtr) (s : State) :
    (delete_cb_objs l s).s_data_map = s.s_data_map := by
  induction l generalizing s with
  | nil => simp [delete_cb_objs]
  | cons p rest ih => simp [delete_cb_objs, ih, State.log]

theorem delete_cb_objs_trees (l : List ObjPtr) (s : State) :
    (delete_cb_objs l s).trees = s.trees := by
  induction l generalizing s with
  | nil => simp [delete_cb_objs]
  | cons p rest ih => simp [delete_cb_objs, ih, State.log]

theorem delete_cb_objs_next_obj (l : List ObjPtr) (s : State) :
    (delete_cb_objs l s).next_obj = s.next_obj := by
  induction l generalizing s with
  | nil => simp [delete_cb_objs]
  | cons p rest ih => simp [delete_cb_objs, ih, State.log]

/-! ## Lemmas on the adapter factory and the attach call -/

/-- What the two adapter factories do, for either role: on `OCSD_OK` one new
object was allocated and is returned; otherwise the state is unchanged and the
returned pointer is null. -/
theorem create_cb_cases (mon : Bool) (protocol : ocsd_trace_protocol_t) (allocOk : Bool)
    (s : State) :
    let r := if mon then ocsd_create_pkt_mon_cb protocol allocOk s
             else ocsd_create_pkt_sink_cb protocol allocOk s
    (r.1 = .OCSD_OK ∧ r.2.1 = s.next_obj + 1 ∧ r.2.2.next_obj = s.next_obj + 1 ∧
        r.2.2.s_data_map = s.s_data_map ∧ r.2.2.trees = s.trees ∧
        (∃ cls, r.2.2.trace = s.trace ++ [Event.opNew (s.next_obj + 1) cls]) ∧
        allocOk = true ∧ (∀ n, protocol ≠ .other n)) ∨
    (r.1 ≠ .OCSD_OK ∧ r.2.1 = 0 ∧ r.2.2 = s ∧
        (r.1 = .OCSD_ERR_NO_PROTOCOL ↔ ∃ n, protocol = .other n)) := by
  cases mon <;> cases protocol <;> cases allocOk <;>
    simp [ocsd_create_pkt_mon_cb, ocsd_create_pkt_sink_cb, new_nothrow]

/-- The part of `ocsd_dt_attach_packet_callback` after the `switch`, given the
error code, adapter pointer and state the `switch` left. -/
theorem attach_after_switch (handle : dcd_tree_handle_t) (env : AttachEnv) (s : State)
    (r : ocsd_err_t × ObjPtr × State)
    (hr : (r.1 = .OCSD_OK ∧ r.2.1 = s.next_obj + 1 ∧ r.2.2.next_obj = s.next_obj + 1 ∧
            r.2.2.s_data_map = s.s_data_map ∧ r.2.2.trees = s.trees ∧
            (∃ cls, r.2.2.trace = s.trace ++ [Event.opNew (s.next_obj + 1) cls])) ∨
          (r.1 ≠ .OCSD_OK ∧ r.2.2 = s)) :
    ∃ err p s1 evs,
      (if r.1 = .OCSD_OK then
        if env.attachPktSink = .OCSD_OK then
          match (r.2.2.log (Event.attachPktSink r.2.1)).s_data_map handle with
          | some _ =>
            some (env.attachPktSink, r.2.1,
              { r.2.2.log (Event.attachPktSink r.2.1) with
                s_data_map :=
                  map_push_back (r.2.2.log (Event.attachPktSink r.2.1)).s_data_map handle r.2.1 })
          | none => some (env.attachPktSink, r.2.1, r.2.2.log (Event.attachPktSink r.2.1))
        else some (env.attachPktSink, r.2.1, r.2.2.log (Event.attachPktSink r.2.1))
      else some (r.1, r.2.1, r.2.2)) = some (err, p, s1) ∧
      s1.trees = s.trees ∧ s1.trace = s.trace ++ evs ∧ deletedObjs evs = [] ∧
      s.next_obj ≤ s1.next_obj ∧
      (∀ k, k ≠ handle → s1.s_data_map k = s.s_data_map k) ∧
      ((err = .OCSD_OK ∧ p = s.next_obj + 1 ∧ s1.next_obj = s.next_obj + 1 ∧
          (∃ cls, Event.opNew p cls ∈ evs) ∧
          s1.s_data_map handle =
            (s.s_data_map handle).map (fun l => { cb_objs := l.cb_objs ++ [p] })) ∨
       (err ≠ .OCSD_OK ∧ s1.s_data_map = s.s_data_map)) := by
  obtain ⟨e, p, s1⟩ := r
  dsimp only at hr ⊢
  rcases hr with ⟨he, hp, hn, hm, htr, ⟨cls, htc⟩⟩ | ⟨he, hs⟩
  · subst he hp
    by_cases hatt : env.attachPktSink = .OCSD_OK
    · cases hmm : s.s_data_map handle with
      | none =>
        refine ⟨.OCSD_OK, s.next_obj + 1, s1.log (Event.attachPktSink (s.next_obj + 1)),
          [Event.opNew (s.next_obj + 1) cls, Event.attachPktSink (s.next_obj + 1)], ?_⟩
        simp [hatt, State.log, hm, hmm, htr, htc, hn, deletedObjs]
      | some l =>
        refine ⟨.OCSD_OK, s.next_obj + 1,
          { s1.log (Event.attachPktSink (s.next_obj + 1)) with
            s_data_map := map_push_back s1.s_data_map handle (s.next_obj + 1) },
          [Event.opNew (s.next_obj + 1) cls, Event.attachPktSink (s.next_obj + 1)], ?_⟩
        simp [hatt, State.log, hm, hmm, htr, htc, hn, deletedObjs, map_push_back]
        intro k h1 h2
        exact absurd h2 h1
    · refine ⟨env.attachPktSink, s.next_obj + 1, s1.log (Event.attachPktSink (s.next_obj + 1)),
        [Event.opNew (s.next_obj + 1) cls, Event.attachPktSink (s.next_obj + 1)], ?_⟩
      simp [hatt, State.log, hm, htr, htc, hn, deletedObjs]
  · subst hs
    refine ⟨e, p, s1, [], ?_⟩
    simp [he, deletedObjs]

/-- What one attach call does on a live tree: it returns, deletes nothing,
leaves the trees and the registry entries of other handles alone, and either
returns `OCSD_OK` with a new adapter appended to the entry of `handle` (when
there is one), or returns an error with the registry unchanged. -/
theorem attach_cases (handle : dcd_tree_handle_t) (CSID : Nat) (ct : ocsd_c_api_cb_types)
    (env : AttachEnv) (s : State) (dt : DecodeTree) (ht : s.trees handle = some dt) :
    ∃ err p s1 evs,
      ocsd_dt_attach_packet_callback handle CSID ct env s = some (err, p, s1) ∧
      s1.trees = s.trees ∧ s1.trace = s.trace ++ evs ∧ deletedObjs evs = [] ∧
      s.next_obj ≤ s1.next_obj ∧
      (∀ k, k ≠ handle → s1.s_data_map k = s.s_data_map k) ∧
      ((err = .OCSD_OK ∧ p = s.next_obj + 1 ∧ s1.next_obj = s.next_obj + 1 ∧
          (∃ cls, Event.opNew p cls ∈ evs) ∧
          s1.s_data_map handle =
            (s.s_data_map handle).map (fun l => { cb_objs := l.cb_objs ++ [p] })) ∨
       (err ≠ .OCSD_OK ∧ s1.s_data_map = s.s_data_map)) := by
  unfold ocsd_dt_attach_packet_callback
  rw [ht]
  cases hel : env.getDecoderElement CSID with
  | none => exact ⟨_, _, _, [], rfl, rfl, by simp, rfl, le_refl _, fun _ _ => rfl,
      Or.inr ⟨by simp, rfl⟩⟩
  | some pElem =>
    have hsink := create_cb_cases false pElem.getProtocol env.allocOk s
    have hmon := create_cb_cases true pElem.getProtocol env.allocOk s
    simp only [Bool.false_eq_true, if_false, if_true] at hsink hmon
    cases ct with
    | OCSD_C_API_CB_PKT_SINK =>
      refine attach_after_switch handle env s _ ?_
      rcases hsink with ⟨h1, h2, h3, h4, h5, h6, -, -⟩ | ⟨h1, -, h3, -⟩
      · exact Or.inl ⟨h1, h2, h3, h4, h5, h6⟩
      · exact Or.inr ⟨h1, h3⟩
    | OCSD_C_API_CB_PKT_MON =>
      refine attach_after_switch handle env s _ ?_
      rcases hmon with ⟨h1, h2, h3, h4, h5, h6, -, -⟩ | ⟨h1, -, h3, -⟩
      · exact Or.inl ⟨h1, h2, h3, h4, h5, h6⟩
      · exact Or.inr ⟨h1, h3⟩
    | other v =>
      exact attach_after_switch handle env s (.OCSD_ERR_INVALID_PARAM_VAL, 0, s)
        (Or.inr ⟨by simp, rfl⟩)

/-- What `ocsd_destroy_dcd_tree` does on a live tree: it deletes the installed
generic element sink (if any), then every recorded adapter in order, erases the
registry entry and destroys the tree. -/
theorem destroy_cases (handle : dcd_tree_handle_t) (s : State) (dt : DecodeTree)
    (hh : handle ≠ C_API_INVALID_TREE_HANDLE) (ht : s.trees handle = some dt) :
    ∃ s3, ocsd_destroy_dcd_tree handle s = some s3 ∧
      s3.trace = s.trace ++
        ((if dt.m_i_gen_elem_out ≠ 0 then [Event.opDelete dt.m_i_gen_elem_out] else []) ++
          ((s.s_data_map handle).elim [] (fun l => l.cb_objs.map Event.opDelete) ++
            [Event.DestroyDecodeTree handle])) ∧
      (∀ k, s3.s_data_map k = if k = handle then none else s.s_data_map k) ∧
      (∀ k, s3.trees k = if k = handle then none else s.trees k) ∧
      s3.next_obj = s.next_obj := by
  unfold ocsd_destroy_dcd_tree
  rw [if_pos hh, ht]
  by_cases hg : dt.m_i_gen_elem_out = 0
  · cases hm : s.s_data_map handle with
    | none =>
      refine ⟨_, rfl, ?_⟩
      simp [hg, hm, DestroyDecodeTree]
      intro k
      by_cases hk : k = handle
      · simp [hk, hm]
      · simp [hk]
    | some l =>
      refine ⟨_, rfl, ?_⟩
      simp [hg, hm, DestroyDecodeTree, delete_cb_objs_trace, delete_cb_objs_s_data_map,
        delete_cb_objs_trees, delete_cb_objs_next_obj, map_erase]
  · cases hm : s.s_data_map handle with
    | none =>
      refine ⟨_, rfl, ?_⟩
      simp [hg, hm, DestroyDecodeTree, State.log]
      intro k
      by_cases hk : k = handle
      · simp [hk, hm]
      · simp [hk]
    | some l =>
      refine ⟨_, rfl, ?_⟩
      simp [hg, hm, DestroyDecodeTree, delete_cb_objs_trace, delete_cb_objs_s_data_map,
        delete_cb_objs_trees, delete_cb_objs_next_obj, map_erase, State.log]

/-- Invariant of a run of attach calls on a live, registered tree. -/
theorem run_attach_calls_inv (handle : dcd_tree_handle_t) (calls : List AttachCall) :
    ∀ (s : State) (dt : DecodeTree) (l : lib_dt_data_list),
      s.trees handle = some dt → s.s_data_map handle = some l →
      ∃ rs s2 evs, run_attach_calls handle calls s = some (rs, s2) ∧
        s2.trees = s.trees ∧
        s2.s_data_map handle = some { cb_objs := l.cb_objs ++ okAdapters rs } ∧
        (∀ k, k ≠ handle → s2.s_data_map k = s.s_data_map k) ∧
        s.next_obj ≤ s2.next_obj ∧ s2.trace = s.trace ++ evs ∧ deletedObjs evs = [] ∧
        (∀ p ∈ okAdapters rs,
          s.next_obj < p ∧ p ≤ s2.next_obj ∧ ∃ cls, Event.opNew p cls ∈ evs) ∧
        (okAdapters rs).Nodup ∧ rs.length = calls.length := by
  induction calls with
  | nil =>
    intro s dt l _ hl
    exact ⟨[], s, [], rfl, rfl, by simp [okAdapters, hl], fun _ _ => rfl, le_refl _,
      by simp, rfl, by simp [okAdapters], by simp [okAdapters], rfl⟩
  | cons c cs ih =>
    intro s dt l ht hl
    obtain ⟨err, p, s1, evs1, hrun, htr1, htc1, hd1, hn1, hk1, hcase⟩ :=
      attach_cases handle c.CSID c.callback_type c.env s dt ht
    rcases hcase with ⟨herr, hp, hnx, ⟨cls, hcls⟩, hmap⟩ | ⟨herr, hmap⟩
    · rw [hl] at hmap
      obtain ⟨rs, s2, evs2, hrun2, htr2, hm2, hk2, hn2, htc2, hd2, hall, hnd, hlen⟩ :=
        ih s1 dt { cb_objs := l.cb_objs ++ [p] } (by rw [htr1]; exact ht) hmap
      have hps : p = s1.next_obj := by rw [hp, hnx]
      refine ⟨(err, p) :: rs, s2, evs1 ++ evs2, ?_, ?_, ?_, ?_, ?_, ?_, ?_, ?_, ?_, ?_⟩
      · simp [run_attach_calls, hrun, hrun2]
      · rw [htr2, htr1]
      · simp [hm2, okAdapters, herr]
      · intro k hk
        rw [hk2 k hk, hk1 k hk]
      · exact le_trans hn1 hn2
      · rw [htc2, htc1, List.append_assoc]
      · rw [deletedObjs_append, hd1, hd2]; rfl
      · intro q hq
        simp only [okAdapters, herr, if_true, List.mem_cons] at hq
        rcases hq with hq | hq
        · subst hq
          refine ⟨?_, ?_, cls, List.mem_append_left _ hcls⟩
          · rw [hp]; exact Nat.lt_succ_self _
          · rw [hps]; exact hn2
        · obtain ⟨h1, h2, c2, h3⟩ := hall q hq
          exact ⟨lt_of_le_of_lt hn1 h1, h2, c2, List.mem_append_right _ h3⟩
      · simp only [okAdapters, herr, if_true, List.nodup_cons]
        refine ⟨?_, hnd⟩
        intro hmem
        have h1 := (hall p hmem).1
        rw [hps] at h1
        exact lt_irrefl _ h1
      · simp [hlen]
    · obtain ⟨rs, s2, evs2, hrun2, htr2, hm2, hk2, hn2, htc2, hd2, hall, hnd, hlen⟩ :=
        ih s1 dt l (by rw [htr1]; exact ht) (by rw [hmap]; exact hl)
      refine ⟨(err, p) :: rs, s2, evs1 ++ evs2, ?_, ?_, ?_, ?_, ?_, ?_, ?_, ?_, ?_, ?_⟩
      · simp [run_attach_calls, hrun, hrun2]
      · rw [htr2, htr1]
      · simp [hm2, okAdapters, herr]
      · intro k hk
        rw [hk2 k hk, hmap]
      · exact le_trans hn1 hn2
      · rw [htc2, htc1, List.append_assoc]
      · rw [deletedObjs_append, hd1, hd2]; rfl
      · intro q hq
        simp only [okAdapters, herr, if_false] at hq
        obtain ⟨h1, h2, c2, h3⟩ := hall q hq
        exact ⟨lt_of_le_of_lt hn1 h1, h2, c2, List.mem_append_right _ h3⟩
      · simpa [okAdapters, herr] using hnd
      · simp [hlen]

theorem deleteCount_eq_count (evs : List Event) (p : ObjPtr) :
    deleteCount evs p = (deletedObjs evs).count p := by
  induction evs with
  | nil => rfl
  | cons e rest ih =>
    unfold deleteCount at ih ⊢
    cases e <;> simp [deletedObjs, List.count_cons, ih]

/-- What a successful `ocsd_create_dcd_tree` leaves behind when the address of
the new tree has no registry entry. -/
theorem create_cases (newTree : dcd_tree_handle_t) (listOk : Bool) (s s1 : State)
    (h : dcd_tree_handle_t) (hc : ocsd_create_dcd_tree newTree listOk s = some (h, s1))
    (hh : h ≠ C_API_INVALID_TREE_HANDLE) (hfresh : s.s_data_map h = none) :
    h = newTree ∧ listOk = true ∧
      s1.trees h = some { m_i_gen_elem_out := 0, hasMemAccMapper := false } ∧
      s1.s_data_map h = some { cb_objs := [] } ∧
      (∀ k, k ≠ h → s1.s_data_map k = s.s_data_map k) := by
  unfold ocsd_create_dcd_tree CreateDecodeTree at hc
  by_cases hn : newTree = 0
  · simp [hn, C_API_INVALID_TREE_HANDLE] at hc
    exact absurd hc.1.symm hh
  · cases listOk with
    | true =>
      simp [hn, C_API_INVALID_TREE_HANDLE] at hc
      obtain ⟨h1, h2⟩ := hc
      subst h1
      subst h2
      simp [map_insert, hfresh]
      intro k hk
      simp [hk]
    | false =>
      simp only [hn, if_false, C_API_INVALID_TREE_HANDLE, ne_eq, not_false_eq_true, if_true,
        Bool.false_eq_true] at hc
      split at hc
      · exact absurd hc (by simp)
      · simp at hc
        exact absurd hc.1.symm hh

/-! ## Claims -/

/-- C1: for every handle `h` returned by `ocsd_create_dcd_tree` (the address of
the new tree having no registry entry yet) and every sequence of
`ocsd_dt_attach_packet_callback` calls on it, whatever each call returns, the
calls all return, delete nothing, and `ocsd_destroy_dcd_tree h` then deletes
exactly the adapters of the calls that returned `OCSD_OK`, in call order and
each exactly once, deletes nothing else, and leaves no registry entry for
`h`. -/
theorem C1_destroy_releases_attached_adapters (newTree : dcd_tree_handle_t) (listOk : Bool)
    (s s1 : State) (h : dcd_tree_handle_t) (calls : List AttachCall)
    (hc : ocsd_create_dcd_tree newTree listOk s = some (h, s1))
    (hh : h ≠ C_API_INVALID_TREE_HANDLE) (hfresh : s.s_data_map h = none) :
    ∃ rs s2 s3 evsA evsD,
      run_attach_calls h calls s1 = some (rs, s2) ∧ rs.length = calls.length ∧
      ocsd_destroy_dcd_tree h s2 = some s3 ∧
      s2.trace = s1.trace ++ evsA ∧ s3.trace = s2.trace ++ evsD ∧
      deletedObjs evsA = [] ∧
      deletedObjs evsD = okAdapters rs ∧ (okAdapters rs).Nodup ∧
      (∀ p ∈ okAdapters rs, ∃ cls, Event.opNew p cls ∈ evsA) ∧
      (∀ p, deleteCount evsD p = if p ∈ okAdapters rs then 1 else 0) ∧
      s3.s_data_map h = none := by
  obtain ⟨-, -, htree, hmap, -⟩ := create_cases newTree listOk s s1 h hc hh hfresh
  obtain ⟨rs, s2, evsA, hrun, htr2, hm2, -, -, htc2, hd2, hall, hnd, hlen⟩ :=
    run_attach_calls_inv h calls s1 _ _ htree hmap
  obtain ⟨s3, hdes, htc3, hm3, -, -⟩ :=
    destroy_cases h s2 _ hh (by rw [htr2]; exact htree)
  have hdel : deletedObjs
      ((if (0 : ObjPtr) ≠ 0 then [Event.opDelete 0] else []) ++
        ((s2.s_data_map h).elim [] (fun l => l.cb_objs.map Event.opDelete) ++
          [Event.DestroyDecodeTree h])) = okAdapters rs := by
    rw [hm2]
    simp [deletedObjs_append, deletedObjs_map_opDelete, deletedObjs]
  refine ⟨rs, s2, s3, evsA, _, hrun, hlen, hdes, htc2, htc3, hd2, hdel, hnd, ?_, ?_, ?_⟩
  · intro p hp
    exact (hall p hp).2.2
  · intro p
    rw [deleteCount_eq_count, hdel]
    by_cases hp : p ∈ okAdapters rs
    · rw [if_pos hp]
      exact List.count_eq_one_of_mem hnd hp
    · rw [if_neg hp]
      exact List.count_eq_zero_of_not_mem hp
  · simpa using hm3 h

/-- C1 at a concrete input: a tree created in a fresh process, then the four
calls of `sampleCalls`. -/
theorem C1_destroy_releases_attached_adapters_witness :
    ocsd_create_dcd_tree 1 true State.init = some (1, stateWithTree) ∧
    (1 : dcd_tree_handle_t) ≠ C_API_INVALID_TREE_HANDLE ∧
    State.init.s_data_map 1 = none ∧
    ∃ rs s2 s3 evsA evsD,
      run_attach_calls 1 sampleCalls stateWithTree = some (rs, s2) ∧ rs.length = sampleCalls.length ∧
      ocsd_destroy_dcd_tree 1 s2 = some s3 ∧
      s2.trace = stateWithTree.trace ++ evsA ∧
      s3.trace = s2.trace ++ evsD ∧
      deletedObjs evsA = [] ∧
      deletedObjs evsD = okAdapters rs ∧ (okAdapters rs).Nodup ∧
      (∀ p ∈ okAdapters rs, ∃ cls, Event.opNew p cls ∈ evsA) ∧
      (∀ p, deleteCount evsD p = if p ∈ okAdapters rs then 1 else 0) ∧
      s3.s_data_map 1 = none :=
  ⟨rfl, by decide, rfl,
    C1_destroy_releases_attached_adapters 1 true State.init _ 1 sampleCalls rfl (by decide) rfl⟩

/-- C2, as stated, fails: on the live tree `1` that has no registry entry, the
attach call returns `OCSD_OK` and builds adapter `1`, yet afterwards the
registry still has no entry for the handle, so the adapter is recorded
nowhere. -/
theorem C2_counterexample_unregistered_handle :
    (ocsd_dt_attach_packet_callback 1 16 .OCSD_C_API_CB_PKT_SINK
        (mkAttachEnv .OCSD_PROTOCOL_ETMV4I true .OCSD_OK) stateUnregisteredTree).map
      (fun r => (r.1, r.2.1, r.2.2.s_data_map 1, r.2.2.live r.2.1))
      = some (.OCSD_OK, 1, none, true) := by
  rfl

/-- C2, amended: whenever `ocsd_dt_attach_packet_callback` returns `OCSD_OK`,
the adapter `p` it built is a non-null object allocated by this call and the
registry entries of all other handles are unchanged; when the handle has a
registry entry, `p` is appended to it after all adapters recorded before;
when the handle has no registry entry, the registry is unchanged. -/
theorem C2_attach_records_in_own_entry (handle : dcd_tree_handle_t) (CSID : Nat)
    (ct : ocsd_c_api_cb_types) (env : AttachEnv) (s s1 : State) (p : ObjPtr)
    (hr : ocsd_dt_attach_packet_callback handle CSID ct env s = some (.OCSD_OK, p, s1)) :
    p ≠ 0 ∧
    (∃ evs cls, s1.trace = s.trace ++ evs ∧ Event.opNew p cls ∈ evs) ∧
    (∀ l, s.s_data_map handle = some l →
      s1.s_data_map handle = some { cb_objs := l.cb_objs ++ [p] }) ∧
    (s.s_data_map handle = none → s1.s_data_map handle = none) ∧
    (∀ k, k ≠ handle → s1.s_data_map k = s.s_data_map k) := by
  cases ht : s.trees handle with
  | none =>
    unfold ocsd_dt_attach_packet_callback at hr
    rw [ht] at hr
    exact absurd hr (by simp)
  | some dt =>
    obtain ⟨err, q, s2, evs, hrun, -, htc, -, -, hk, hcase⟩ :=
      attach_cases handle CSID ct env s dt ht
    rw [hrun] at hr
    simp only [Option.some.injEq, Prod.mk.injEq] at hr
    obtain ⟨h1, h2, h3⟩ := hr
    subst h1 h2 h3
    rcases hcase with ⟨-, hp, -, ⟨cls, hcls⟩, hmap⟩ | ⟨herr, -⟩
    · refine ⟨by rw [hp]; exact Nat.succ_ne_zero _, ⟨evs, cls, htc, hcls⟩, ?_, ?_, hk⟩
      · intro l hl
        rw [hmap, hl]
        rfl
      · intro hl
        rw [hmap, hl]
        rfl
    · exact absurd rfl herr

/-- C2 amended, at a concrete input: an accepted packet sink on the registered
tree `1`. -/
theorem C2_attach_records_in_own_entry_witness :
    ocsd_dt_attach_packet_callback 1 16 .OCSD_C_API_CB_PKT_SINK
        (mkAttachEnv .OCSD_PROTOCOL_ETMV4I true .OCSD_OK) stateWithTree
      = some (.OCSD_OK, 1, stateAfterAttach) ∧
    ((1 : ObjPtr) ≠ 0 ∧
    (∃ evs cls, stateAfterAttach.trace = stateWithTree.trace ++ evs ∧ Event.opNew 1 cls ∈ evs) ∧
    (∀ l, stateWithTree.s_data_map 1 = some l →
      stateAfterAttach.s_data_map 1 = some { cb_objs := l.cb_objs ++ [1] }) ∧
    (stateWithTree.s_data_map 1 = none → stateAfterAttach.s_data_map 1 = none) ∧
    (∀ k, k ≠ 1 → stateAfterAttach.s_data_map k = stateWithTree.s_data_map k)) :=
  ⟨rfl, C2_attach_records_in_own_entry 1 16 .OCSD_C_API_CB_PKT_SINK
    (mkAttachEnv .OCSD_PROTOCOL_ETMV4I true .OCSD_OK) stateWithTree stateAfterAttach 1 rfl⟩

/-- C3, the code at the failing input: on the registered tree `1` the PTM sink
adapter `1` is built, `attachPktSink` returns an error, and the call returns
that error with the registry entry unchanged but with the adapter still
allocated: it was deleted zero times, and the later `ocsd_destroy_dcd_tree`
does not delete it either. -/
theorem C3_failed_attach_leaves_adapter_allocated :
    (ocsd_dt_attach_packet_callback 1 18 .OCSD_C_API_CB_PKT_SINK
        (mkAttachEnv .OCSD_PROTOCOL_PTM true .OCSD_ERR_INVALID_PARAM_VAL) stateWithTree).map
      (fun r => (r.1, r.2.1, r.2.2.s_data_map 1, r.2.2.live r.2.1,
        deleteCount r.2.2.trace r.2.1,
        (ocsd_destroy_dcd_tree 1 r.2.2).map (fun s3 => (s3.live r.2.1, deletedObjs s3.trace))))
      = some (.OCSD_ERR_INVALID_PARAM_VAL, 1, some { cb_objs := [] }, true, 0,
          some (true, [])) := by
  rfl

/-- C4: for a decoder element whose protocol is none of ETMV4I, ETMV3, PTM,
STM, and for either callback role, both adapter factories return
`OCSD_ERR_NO_PROTOCOL` with a null output pointer and an unchanged state, and
`ocsd_dt_attach_packet_callback` returns `OCSD_ERR_NO_PROTOCOL` leaving the
whole state unchanged (no object allocated, `attachPktSink` not called, no
registry change); for each of the four listed protocols neither factory
returns `OCSD_ERR_NO_PROTOCOL`. -/
theorem C4_unsupported_protocol_rejected (handle : dcd_tree_handle_t) (CSID : Nat)
    (ct : ocsd_c_api_cb_types) (env : AttachEnv) (s : State) (dt : DecodeTree)
    (pElem : DecodeTreeElement)
    (ht : s.trees handle = some dt)
    (hel : env.getDecoderElement CSID = some pElem)
    (hct : ct = .OCSD_C_API_CB_PKT_SINK ∨ ct = .OCSD_C_API_CB_PKT_MON)
    (hp : pElem.getProtocol ∉ supportedProtocols) :
    ocsd_create_pkt_sink_cb pElem.getProtocol env.allocOk s = (.OCSD_ERR_NO_PROTOCOL, 0, s) ∧
    ocsd_create_pkt_mon_cb pElem.getProtocol env.allocOk s = (.OCSD_ERR_NO_PROTOCOL, 0, s) ∧
    ocsd_dt_attach_packet_callback handle CSID ct env s = some (.OCSD_ERR_NO_PROTOCOL, 0, s) ∧
    (∀ q ∈ supportedProtocols, ∀ (a : Bool) (t : State),
      (ocsd_create_pkt_sink_cb q a t).1 ≠ .OCSD_ERR_NO_PROTOCOL ∧
      (ocsd_create_pkt_mon_cb q a t).1 ≠ .OCSD_ERR_NO_PROTOCOL) := by
  have hsink : ocsd_create_pkt_sink_cb pElem.getProtocol env.allocOk s
      = (.OCSD_ERR_NO_PROTOCOL, 0, s) := by
    cases hq : pElem.getProtocol <;> simp [hq, supportedProtocols] at hp
    simp [ocsd_create_pkt_sink_cb]
  have hmon : ocsd_create_pkt_mon_cb pElem.getProtocol env.allocOk s
      = (.OCSD_ERR_NO_PROTOCOL, 0, s) := by
    cases hq : pElem.getProtocol <;> simp [hq, supportedProtocols] at hp
    simp [ocsd_create_pkt_mon_cb]
  refine ⟨hsink, hmon, ?_, ?_⟩
  · unfold ocsd_dt_attach_packet_callback
    rw [ht, hel]
    rcases hct with hct | hct <;> subst hct <;> simp [hsink, hmon]
  · intro q hq a t
    simp only [supportedProtocols, List.mem_cons, List.mem_singleton, List.not_mem_nil,
      or_false] at hq
    rcases hq with hq | hq | hq | hq <;> subst hq <;> cases a <;>
      simp [ocsd_create_pkt_sink_cb, ocsd_create_pkt_mon_cb, new_nothrow]

/-- C4 at a concrete input: a packet monitor on a decoder of protocol
`other 3` of the registered tree `1`. -/
theorem C4_unsupported_protocol_rejected_witness :
    stateWithTree.trees 1 = some { m_i_gen_elem_out := 0, hasMemAccMapper := false } ∧
    (mkAttachEnv (.other 3) true .OCSD_OK).getDecoderElement 17
      = some { getProtocol := .other 3 } ∧
    ocsd_trace_protocol_t.other 3 ∉ supportedProtocols ∧
    ocsd_dt_attach_packet_callback 1 17 .OCSD_C_API_CB_PKT_MON
      (mkAttachEnv (.other 3) true .OCSD_OK) stateWithTree
      = some (.OCSD_ERR_NO_PROTOCOL, 0, stateWithTree) :=
  ⟨rfl, rfl, by decide,
    (C4_unsupported_protocol_rejected 1 17 .OCSD_C_API_CB_PKT_MON
      (mkAttachEnv (.other 3) true .OCSD_OK) stateWithTree _ { getProtocol := .other 3 }
      rfl rfl (Or.inr rfl) (by decide)).2.2.1⟩

/-- C5, the code at the failing input: on the registered tree `1` two calls of
`ocsd_dt_set_gen_elem_outfn` both return `OCSD_OK`; after the second call the
first sink object (`1`) and the second (`2`) are both live, and
`ocsd_destroy_dcd_tree` deletes only the second, so the first stays live. -/
theorem C5_replaced_sink_never_released :
    replaceSinkScenario 1 stateWithTree
      = some (.OCSD_OK, .OCSD_OK, true, true, true, false, [2]) := by
  rfl

/-- C6: `ocsd_create_dcd_tree` (the address of a new tree having no registry
entry) returns; the handle is valid exactly when the tree creation and the
bookkeeping allocation both succeed, and then it is the new tree, mapped by the
registry to an entry with an empty adapter list, the other entries being
unchanged; when the tree is created but the bookkeeping allocation fails, the
invalid handle is returned, the registry is unchanged, and the new tree was
destroyed exactly once (and nothing was deleted); when the tree creation fails
the state is unchanged. -/
theorem C6_create_tree_rollback (newTree : dcd_tree_handle_t) (listOk : Bool) (s : State)
    (hfresh : s.s_data_map newTree = none) :
    ∃ h s1 evs, ocsd_create_dcd_tree newTree listOk s = some (h, s1) ∧
      s1.trace = s.trace ++ evs ∧
      (h ≠ C_API_INVALID_TREE_HANDLE ↔ (newTree ≠ 0 ∧ listOk = true)) ∧
      (h ≠ C_API_INVALID_TREE_HANDLE →
        h = newTree ∧ s1.s_data_map h = some { cb_objs := [] } ∧
        s1.trees h = some { m_i_gen_elem_out := 0, hasMemAccMapper := false } ∧
        (∀ k, k ≠ h → s1.s_data_map k = s.s_data_map k) ∧
        evs.count (Event.DestroyDecodeTree newTree) = 0) ∧
      (newTree ≠ 0 → listOk = false →
        h = C_API_INVALID_TREE_HANDLE ∧ s1.s_data_map = s.s_data_map ∧
        evs = [Event.CreateDecodeTree newTree, Event.DestroyDecodeTree newTree] ∧
        evs.count (Event.DestroyDecodeTree newTree) = 1 ∧ s1.trees newTree = none) ∧
      (newTree = 0 → h = C_API_INVALID_TREE_HANDLE ∧ s1 = s) := by
  by_cases hn : newTree = 0
  · subst hn
    refine ⟨0, s, [], ?_, by simp, ?_, ?_, ?_, ?_⟩ <;>
      simp [ocsd_create_dcd_tree, CreateDecodeTree, C_API_INVALID_TREE_HANDLE]
  · cases listOk with
    | true =>
      refine ⟨newTree,
        { (CreateDecodeTree newTree s).2 with
          s_data_map := map_insert (CreateDecodeTree newTree s).2.s_data_map newTree
            { cb_objs := [] } },
        [Event.CreateDecodeTree newTree], ?_, ?_, ?_, ?_, ?_, ?_⟩
      · simp [ocsd_create_dcd_tree, CreateDecodeTree, C_API_INVALID_TREE_HANDLE, hn]
      · simp [CreateDecodeTree, hn]
      · simp [C_API_INVALID_TREE_HANDLE, hn]
      · intro _
        refine ⟨rfl, ?_, ?_, ?_, ?_⟩
        · simp [map_insert, hfresh, CreateDecodeTree, hn]
        · simp [CreateDecodeTree, hn]
        · intro k hk
          simp [map_insert, hk, CreateDecodeTree, hn]
        · simp
      · intro _ h2
        exact absurd h2 (by simp)
      · intro h0
        exact absurd h0 hn
    | false =>
      refine ⟨0, DestroyDecodeTree newTree (CreateDecodeTree newTree s).2,
        [Event.CreateDecodeTree newTree, Event.DestroyDecodeTree newTree],
        ?_, ?_, ?_, ?_, ?_, ?_⟩
      · simp [ocsd_create_dcd_tree, CreateDecodeTree, C_API_INVALID_TREE_HANDLE, hn,
          ocsd_destroy_dcd_tree, hfresh, DestroyDecodeTree]
      · simp [CreateDecodeTree, hn, DestroyDecodeTree]
      · simp [C_API_INVALID_TREE_HANDLE]
      · intro h0
        exact absurd rfl h0
      · intro _ _
        refine ⟨rfl, ?_, rfl, ?_, ?_⟩
        · simp [CreateDecodeTree, hn, DestroyDecodeTree]
        · simp
        · simp [CreateDecodeTree, hn, DestroyDecodeTree]
      · intro h0
        exact absurd h0 hn

/-- C6 at a concrete input: in a fresh process the tree `1` is created and the
bookkeeping allocation fails. -/
theorem C6_create_tree_rollback_witness :
    State.init.s_data_map 1 = none ∧
    ∃ h s1 evs, ocsd_create_dcd_tree 1 false State.init = some (h, s1) ∧
      s1.trace = State.init.trace ++ evs ∧
      (h ≠ C_API_INVALID_TREE_HANDLE ↔ ((1 : dcd_tree_handle_t) ≠ 0 ∧ false = true)) ∧
      (h ≠ C_API_INVALID_TREE_HANDLE →
        h = 1 ∧ s1.s_data_map h = some { cb_objs := [] } ∧
        s1.trees h = some { m_i_gen_elem_out := 0, hasMemAccMapper := false } ∧
        (∀ k, k ≠ h → s1.s_data_map k = State.init.s_data_map k) ∧
        evs.count (Event.DestroyDecodeTree 1) = 0) ∧
      ((1 : dcd_tree_handle_t) ≠ 0 → false = false →
        h = C_API_INVALID_TREE_HANDLE ∧ s1.s_data_map = State.init.s_data_map ∧
        evs = [Event.CreateDecodeTree 1, Event.DestroyDecodeTree 1] ∧
        evs.count (Event.DestroyDecodeTree 1) = 1 ∧ s1.trees 1 = none) ∧
      ((1 : dcd_tree_handle_t) = 0 → h = C_API_INVALID_TREE_HANDLE ∧ s1 = State.init) :=
  ⟨rfl, C6_create_tree_rollback 1 false State.init rfl⟩

/-- C7: on a live tree `ocsd_dt_create_decoder` returns on every path, and the
events of the call show that every configuration object it obtained from
`createConfigFromDataStruct` was deleted exactly once before the return (and
nothing else was deleted): no object on the two early exits, and on the paths
through `createDecoder`, failing or not, the one configuration object, deleted
after `createDecoder` used it.  The trace ID of the configuration is written
to `*pCSID` when the call returns `OCSD_OK`, and nothing is written
otherwise. -/
theorem C7_create_decoder_releases_config (handle : dcd_tree_handle_t)
    (env : CreateDecoderEnv) (s : State) (dt : DecodeTree) (ht : s.trees handle = some dt) :
    ∃ err written s1 evs,
      ocsd_dt_create_decoder handle env s = some (err, written, s1) ∧
      s1.trace = s.trace ++ evs ∧
      (∀ p, deleteCount evs p = if Event.opNew p .CSConfig ∈ evs then 1 else 0) ∧
      (∀ p cls, Event.opNew p cls ∈ evs → cls = .CSConfig) ∧
      (err = .OCSD_OK → written = some env.getTraceID) ∧
      (err ≠ .OCSD_OK → written = none) ∧
      (env.getDecoderMngrByName ≠ .OCSD_OK → err = env.getDecoderMngrByName ∧ evs = []) ∧
      (env.getDecoderMngrByName = .OCSD_OK → env.createConfigFromDataStruct ≠ .OCSD_OK →
        err = env.createConfigFromDataStruct ∧ evs = []) ∧
      (env.getDecoderMngrByName = .OCSD_OK → env.createConfigFromDataStruct = .OCSD_OK →
        err = env.createDecoder ∧
        evs = [Event.opNew (s.next_obj + 1) .CSConfig,
               Event.createDecoder handle (s.next_obj + 1),
               Event.opDelete (s.next_obj + 1)]) := by
  by_cases hm : env.getDecoderMngrByName = .OCSD_OK
  · by_cases hcfg : env.createConfigFromDataStruct = .OCSD_OK
    · refine ⟨env.createDecoder,
        if env.createDecoder = .OCSD_OK then some env.getTraceID else none,
        op_delete (s.next_obj + 1)
          ((new_nothrow .CSConfig true s).2.log (Event.createDecoder handle (s.next_obj + 1))),
        [Event.opNew (s.next_obj + 1) .CSConfig, Event.createDecoder handle (s.next_obj + 1),
          Event.opDelete (s.next_obj + 1)], ?_, ?_, ?_, ?_, ?_, ?_, ?_, ?_, ?_⟩
      · simp [ocsd_dt_create_decoder, createConfigFromDataStruct, hm, hcfg, new_nothrow,
          State.log, ht]
      · simp [op_delete, new_nothrow, State.log]
      · intro p
        by_cases hp : p = s.next_obj + 1
        · subst hp
          simp [deleteCount]
        · simp [deleteCount, hp]
      · intro p cls hmem
        simp at hmem
        exact hmem.2
      · intro h1
        simp [h1]
      · intro h1
        simp [h1]
      · intro h1
        exact absurd hm h1
      · intro _ h2
        exact absurd hcfg h2
      · intro _ _
        exact ⟨rfl, rfl⟩
    · refine ⟨env.createConfigFromDataStruct, none, s, [], ?_, by simp, ?_, ?_, ?_, ?_, ?_, ?_, ?_⟩
      · simp [ocsd_dt_create_decoder, createConfigFromDataStruct, hm, hcfg]
      · intro p
        simp [deleteCount]
      · intro p cls hmem
        simp at hmem
      · intro h1
        exact absurd h1 hcfg
      · intro _
        rfl
      · intro h1
        exact absurd hm h1
      · intro _ _
        exact ⟨rfl, rfl⟩
      · intro _ h2
        exact absurd h2 hcfg
  · refine ⟨env.getDecoderMngrByName, none, s, [], ?_, by simp, ?_, ?_, ?_, ?_, ?_, ?_, ?_⟩
    · simp [ocsd_dt_create_decoder, hm]
    · intro p
      simp [deleteCount]
    · intro p cls hmem
      simp at hmem
    · intro h1
      exact absurd h1 hm
    · intro _
      rfl
    · intro _
      exact ⟨rfl, rfl⟩
    · intro h1
      exact absurd h1 hm
    · intro h1
      exact absurd h1 hm

/-- C7 at a concrete input: a decoder creation on the registered tree `1` in
which every step succeeds. -/
theorem C7_create_decoder_releases_config_witness :
    stateWithTree.trees 1 = some { m_i_gen_elem_out := 0, hasMemAccMapper := false } ∧
    ∃ err written s1 evs,
      ocsd_dt_create_decoder 1 createDecoderOk stateWithTree = some (err, written, s1) ∧
      s1.trace = stateWithTree.trace ++ evs ∧
      (∀ p, deleteCount evs p = if Event.opNew p .CSConfig ∈ evs then 1 else 0) ∧
      (∀ p cls, Event.opNew p cls ∈ evs → cls = .CSConfig) ∧
      (err = .OCSD_OK → written = some createDecoderOk.getTraceID) ∧
      (err ≠ .OCSD_OK → written = none) ∧
      (createDecoderOk.getDecoderMngrByName ≠ .OCSD_OK →
        err = createDecoderOk.getDecoderMngrByName ∧ evs = []) ∧
      (createDecoderOk.getDecoderMngrByName = .OCSD_OK →
        createDecoderOk.createConfigFromDataStruct ≠ .OCSD_OK →
        err = createDecoderOk.createConfigFromDataStruct ∧ evs = []) ∧
      (createDecoderOk.getDecoderMngrByName = .OCSD_OK →
        createDecoderOk.createConfigFromDataStruct = .OCSD_OK →
        err = createDecoderOk.createDecoder ∧
        evs = [Event.opNew (stateWithTree.next_obj + 1) .CSConfig,
               Event.createDecoder 1 (stateWithTree.next_obj + 1),
               Event.opDelete (stateWithTree.next_obj + 1)]) :=
  ⟨rfl, C7_create_decoder_releases_config 1 createDecoderOk stateWithTree _ rfl⟩

/-! ## Lemmas on the memory accessor operations -/

/-- The opening of an accessor operation succeeds when the tree has a map or
the map creation succeeds; it allocates nothing and logs at most the map
creation. -/
theorem ensure_mapper_ok (handle : dcd_tree_handle_t) (dt : DecodeTree) (env : MemAccEnv)
    (s : State) (hmap : dt.hasMemAccMapper = true ∨ env.createMemAccMapper = .OCSD_OK) :
    ∃ s0, ensure_mapper handle dt env s = (.OCSD_OK, s0) ∧ s0.next_obj = s.next_obj ∧
      s0.trace = s.trace ++
        (if dt.hasMemAccMapper then [] else [Event.createMemAccMapper handle]) ∧
      (s0.trees handle).map (fun d => d.hasMemAccMapper)
        = if dt.hasMemAccMapper then (s.trees handle).map (fun d => d.hasMemAccMapper)
          else some true := by
  cases hd : dt.hasMemAccMapper with
  | true => exact ⟨s, by simp [ensure_mapper, hd], rfl, by simp, by simp⟩
  | false =>
    have hc : env.createMemAccMapper = .OCSD_OK := by
      rcases hmap with h | h
      · rw [hd] at h
        exact absurd h (by simp)
      · exact h
    refine ⟨(createMemAccMapper handle dt env.createMemAccMapper s).2, ?_, ?_, ?_, ?_⟩ <;>
      simp [ensure_mapper, hd, createMemAccMapper, hc, State.log]

theorem binfile_outcome (handle : dcd_tree_handle_t) (address mem_space : Nat)
    (env : MemAccEnv) (s : State) (dt : DecodeTree)
    (hh : handle ≠ C_API_INVALID_TREE_HANDLE) (ht : s.trees handle = some dt)
    (hmap : dt.hasMemAccMapper = true ∨ env.createMemAccMapper = .OCSD_OK)
    (hfac : env.createAccessor = .OCSD_OK) :
    AccessorOutcome handle env s (ocsd_dt_add_binfile_mem_acc handle address mem_space env s) := by
  obtain ⟨s0, hs0, hn0, ht0, -⟩ := ensure_mapper_ok handle dt env s hmap
  unfold AccessorOutcome ocsd_dt_add_binfile_mem_acc
  simp only [hh, ht, hs0, create_accessor, hfac, new_nothrow, if_true, ne_eq, not_false_eq_true]
  cases hc : env.castOk with
  | false =>
    simp [State.log, hn0, ht0]
    refine ⟨_, _, ⟨rfl, rfl⟩, _, rfl, ?_⟩
    cases dt.hasMemAccMapper <;> simp
  | true =>
    by_cases ha : env.addMemAccessorToMap = .OCSD_OK
    · simp [State.log, hn0, ht0, ha]
      refine ⟨_, _, ⟨rfl, rfl⟩, _, rfl, ?_⟩
      cases dt.hasMemAccMapper <;> simp
    · simp [State.log, hn0, ht0, ha]
      refine ⟨_, _, ⟨rfl, rfl⟩, _, rfl, ?_⟩
      cases dt.hasMemAccMapper <;> simp [ha]

theorem buffer_outcome (handle : dcd_tree_handle_t) (address mem_space mem_length : Nat)
    (env : MemAccEnv) (s : State) (dt : DecodeTree)
    (hh : handle ≠ C_API_INVALID_TREE_HANDLE) (ht : s.trees handle = some dt)
    (hmap : dt.hasMemAccMapper = true ∨ env.createMemAccMapper = .OCSD_OK)
    (hfac : env.createAccessor = .OCSD_OK) :
    AccessorOutcome handle env s (ocsd_dt_add_buffer_mem_acc handle address mem_space mem_length env s) := by
  obtain ⟨s0, hs0, hn0, ht0, -⟩ := ensure_mapper_ok handle dt env s hmap
  unfold AccessorOutcome ocsd_dt_add_buffer_mem_acc
  simp only [hh, ht, hs0, create_accessor, hfac, new_nothrow, if_true, ne_eq, not_false_eq_true]
  cases hc : env.castOk with
  | false =>
    simp [State.log, hn0, ht0]
    refine ⟨_, _, ⟨rfl, rfl⟩, _, rfl, ?_⟩
    cases dt.hasMemAccMapper <;> simp
  | true =>
    by_cases ha : env.addMemAccessorToMap = .OCSD_OK
    · simp [State.log, hn0, ht0, ha]
      refine ⟨_, _, ⟨rfl, rfl⟩, _, rfl, ?_⟩
      cases dt.hasMemAccMapper <;> simp
    · simp [State.log, hn0, ht0, ha]
      refine ⟨_, _, ⟨rfl, rfl⟩, _, rfl, ?_⟩
      cases dt.hasMemAccMapper <;> simp [ha]

theorem callback_outcome (handle : dcd_tree_handle_t) (st_address en_address mem_space : Nat)
    (env : MemAccEnv) (s : State) (dt : DecodeTree)
    (hh : handle ≠ C_API_INVALID_TREE_HANDLE) (ht : s.trees handle = some dt)
    (hmap : dt.hasMemAccMapper = true ∨ env.createMemAccMapper = .OCSD_OK)
    (hfac : env.createAccessor = .OCSD_OK) :
    AccessorOutcome handle env s (ocsd_dt_add_callback_mem_acc handle st_address en_address mem_space env s) := by
  obtain ⟨s0, hs0, hn0, ht0, -⟩ := ensure_mapper_ok handle dt env s hmap
  unfold AccessorOutcome ocsd_dt_add_callback_mem_acc
  simp only [hh, ht, hs0, create_accessor, hfac, new_nothrow, if_true, ne_eq, not_false_eq_true]
  cases hc : env.castOk with
  | false =>
    simp [State.log, hn0, ht0]
    refine ⟨_, _, ⟨rfl, rfl⟩, _, rfl, ?_⟩
    cases dt.hasMemAccMapper <;> simp
  | true =>
    by_cases ha : env.addMemAccessorToMap = .OCSD_OK
    · simp [State.log, hn0, ht0, ha]
      refine ⟨_, _, ⟨rfl, rfl⟩, _, rfl, ?_⟩
      cases dt.hasMemAccMapper <;> simp
    · simp [State.log, hn0, ht0, ha]
      refine ⟨_, _, ⟨rfl, rfl⟩, _, rfl, ?_⟩
      cases dt.hasMemAccMapper <;> simp [ha]

/-- The loop over the regions returns when every index it reads is inside the
array, and appends exactly `offset_range_events`. -/
theorem add_offset_ranges_trace (pAcc : ObjPtr) (arr : List file_mem_region_t) (fuel : Nat) :
    ∀ (idx : Nat) (s : State), idx + fuel ≤ arr.length →
      add_offset_ranges pAcc arr fuel idx s
        = some { s with trace := s.trace ++ offset_range_events pAcc arr fuel idx } := by
  induction fuel with
  | zero =>
    intro idx s _
    simp [add_offset_ranges, offset_range_events]
  | succ n ih =>
    intro idx s hle
    have hlt : idx < arr.length := by omega
    have hget : arr.get? idx = some (arr.get ⟨idx, hlt⟩) := List.get?_eq_get hlt
    simp only [add_offset_ranges, offset_range_events, hget]
    rw [ih (idx + 1) _ (by omega)]
    simp [State.log]

theorem offset_range_events_no_destroy (pAcc : ObjPtr) (arr : List file_mem_region_t)
    (fuel : Nat) : ∀ (idx : Nat) (b : ObjPtr),
      Event.DestroyAccessor b ∉ offset_range_events pAcc arr fuel idx := by
  induction fuel with
  | zero =>
    intro idx b
    simp [offset_range_events]
  | succ n ih =>
    intro idx b
    unfold offset_range_events
    cases arr.get? idx with
    | none => simp
    | some r => simp [ih (idx + 1) b]

theorem getLast?_cons_append_three (x : Event) (xs : List Event) (a b c : Event) :
    (x :: (xs ++ [a, b, c])).getLast? = some c := by
  have hsplit : x :: (xs ++ [a, b, c]) = (x :: (xs ++ [a, b])) ++ [c] := by simp
  rw [hsplit, List.getLast?_concat]

theorem offset_range_events_count_destroy (pAcc : ObjPtr) (arr : List file_mem_region_t)
    (fuel idx : Nat) (b : ObjPtr) :
    List.count (Event.DestroyAccessor b) (offset_range_events pAcc arr fuel idx) = 0 :=
  List.count_eq_zero_of_not_mem (offset_range_events_no_destroy pAcc arr fuel idx b)

theorem binfile_region_outcome (handle : dcd_tree_handle_t) (arr : List file_mem_region_t)
    (num_regions : Int) (mem_space : Nat)
    (env : MemAccEnv) (s : State) (dt : DecodeTree)
    (hh : handle ≠ C_API_INVALID_TREE_HANDLE) (ht : s.trees handle = some dt)
    (hnum : num_regions ≠ 0) (hpos : 0 < arr.length) (hlen : num_regions ≤ arr.length)
    (hmap : dt.hasMemAccMapper = true ∨ env.createMemAccMapper = .OCSD_OK)
    (hfac : env.createAccessor = .OCSD_OK) :
    AccessorOutcome handle env s
      (ocsd_dt_add_binfile_region_mem_acc handle (some arr) num_regions mem_space env s) := by
  obtain ⟨s0, hs0, hn0, ht0, -⟩ := ensure_mapper_ok handle dt env s hmap
  have hget : arr.get? 0 = some (arr.get ⟨0, hpos⟩) := List.get?_eq_get hpos
  have hfuel : 1 + (num_regions - ((1 : Nat) : Int)).toNat ≤ arr.length := by omega
  unfold AccessorOutcome ocsd_dt_add_binfile_region_mem_acc
  simp only [hh, hnum, ht, hs0, hget, create_accessor, hfac, new_nothrow, if_true, ne_eq,
    not_false_eq_true, and_self, Nat.cast_ofNat, Int.Nat.cast_ofNat_Int]
  cases hc : env.castOk with
  | false =>
    simp [State.log, hn0, ht0]
    refine ⟨_, _, ⟨rfl, rfl⟩, _, rfl, ?_⟩
    cases dt.hasMemAccMapper <;> simp
  | true =>
    simp only [if_true]
    rw [add_offset_ranges_trace _ arr _ 1 _ hfuel]
    by_cases ha : env.addMemAccessorToMap = .OCSD_OK
    · simp [State.log, hn0, ht0, ha]
      refine ⟨_, _, ⟨rfl, rfl⟩, _, rfl, ?_⟩
      cases dt.hasMemAccMapper <;>
        simp [offset_range_events_no_destroy, offset_range_events_count_destroy]
    · simp [State.log, hn0, ht0, ha]
      refine ⟨_, _, ⟨rfl, rfl⟩, _, rfl, ?_⟩
      cases dt.hasMemAccMapper <;>
        simp [ha, offset_range_events_no_destroy, offset_range_events_count_destroy] <;>
        exact getLast?_cons_append_three _ _ _ _ _

/-- C8: for each of `ocsd_dt_add_binfile_mem_acc`,
`ocsd_dt_add_binfile_region_mem_acc`, `ocsd_dt_add_buffer_mem_acc` and
`ocsd_dt_add_callback_mem_acc`, on a live tree and once the accessor factory has
succeeded, the call returns and the accessor the factory built is destroyed
exactly once, as the last action, if the call returns an error, and is not
destroyed if the call returns `OCSD_OK`; an error is returned exactly when the
accessor has the wrong type or `addMemAccessorToMap` fails; on `OCSD_OK` the
accessor was handed to the map of the tree. -/
theorem C8_accessor_destroyed_iff_error (handle : dcd_tree_handle_t)
    (address st_address en_address mem_space mem_length : Nat)
    (arr : List file_mem_region_t) (num_regions : Int)
    (env : MemAccEnv) (s : State) (dt : DecodeTree)
    (hh : handle ≠ C_API_INVALID_TREE_HANDLE) (ht : s.trees handle = some dt)
    (hnum : num_regions ≠ 0) (hpos : 0 < arr.length) (hlen : num_regions ≤ arr.length)
    (hmap : dt.hasMemAccMapper = true ∨ env.createMemAccMapper = .OCSD_OK)
    (hfac : env.createAccessor = .OCSD_OK) :
    AccessorOutcome handle env s
      (ocsd_dt_add_binfile_mem_acc handle address mem_space env s) ∧
    AccessorOutcome handle env s
      (ocsd_dt_add_binfile_region_mem_acc handle (some arr) num_regions mem_space env s) ∧
    AccessorOutcome handle env s
      (ocsd_dt_add_buffer_mem_acc handle address mem_space mem_length env s) ∧
    AccessorOutcome handle env s
      (ocsd_dt_add_callback_mem_acc handle st_address en_address mem_space env s) :=
  ⟨binfile_outcome handle address mem_space env s dt hh ht hmap hfac,
    binfile_region_outcome handle arr num_regions mem_space env s dt hh ht hnum hpos hlen
      hmap hfac,
    buffer_outcome handle address mem_space mem_length env s dt hh ht hmap hfac,
    callback_outcome handle st_address en_address mem_space env s dt hh ht hmap hfac⟩

/-- C8 at a concrete input: the four operations on the registered tree `1`,
with `addMemAccessorToMap` failing. -/
theorem C8_accessor_destroyed_iff_error_witness :
    (1 : dcd_tree_handle_t) ≠ C_API_INVALID_TREE_HANDLE ∧
    stateWithTree.trees 1 = some { m_i_gen_elem_out := 0, hasMemAccMapper := false } ∧
    (2 : Int) ≠ 0 ∧ 0 < sampleRegions.length ∧ (2 : Int) ≤ sampleRegions.length ∧
    memAccAddFails.createAccessor = .OCSD_OK ∧
    (AccessorOutcome 1 memAccAddFails stateWithTree
      (ocsd_dt_add_binfile_mem_acc 1 0x1000 0 memAccAddFails stateWithTree) ∧
    AccessorOutcome 1 memAccAddFails stateWithTree
      (ocsd_dt_add_binfile_region_mem_acc 1 (some sampleRegions) 2 0 memAccAddFails
        stateWithTree) ∧
    AccessorOutcome 1 memAccAddFails stateWithTree
      (ocsd_dt_add_buffer_mem_acc 1 0x1000 0 0x100 memAccAddFails stateWithTree) ∧
    AccessorOutcome 1 memAccAddFails stateWithTree
      (ocsd_dt_add_callback_mem_acc 1 0x1000 0x10ff 0 memAccAddFails stateWithTree)) :=
  ⟨by decide, rfl, by decide, by decide, by decide, rfl,
    C8_accessor_destroyed_iff_error 1 0x1000 0x1000 0x10ff 0 0x100 sampleRegions 2
      memAccAddFails stateWithTree _ (by decide) rfl (by decide) (by decide) (by decide)
      (Or.inr rfl) rfl⟩

theorem binfile_creates_map (handle : dcd_tree_handle_t) (address mem_space : Nat)
    (env : MemAccEnv) (s : State) (dt : DecodeTree)
    (hh : handle ≠ C_API_INVALID_TREE_HANDLE) (ht : s.trees handle = some dt)
    (hno : dt.hasMemAccMapper = false) :
    MapCreatedFirst handle env s (ocsd_dt_add_binfile_mem_acc handle address mem_space env s) := by
  unfold MapCreatedFirst ocsd_dt_add_binfile_mem_acc
  simp only [hh, ht, ensure_mapper, hno, createMemAccMapper, create_accessor, new_nothrow,
    if_true, ne_eq, not_false_eq_true, Bool.not_false]
  by_cases hm : env.createMemAccMapper = .OCSD_OK
  · by_cases hf : env.createAccessor = .OCSD_OK
    · cases hc : env.castOk with
      | false =>
        simp only [hm, hf, if_true, if_false, not_true_eq_false, not_false_eq_true,
          Bool.false_eq_true, State.log]
        refine ⟨_, _, [Event.opNew (s.next_obj + 1) (.MemAccessor .file), Event.CreateFileAccessor (s.next_obj + 1) address 0 0,
          Event.DestroyAccessor (s.next_obj + 1)], rfl, ?_⟩
        simp
      | true =>
        by_cases ha : env.addMemAccessorToMap = .OCSD_OK
        · simp only [hm, hf, ha, if_true, if_false, not_true_eq_false, not_false_eq_true,
            State.log]
          refine ⟨_, _, [Event.opNew (s.next_obj + 1) (.MemAccessor .file), Event.CreateFileAccessor (s.next_obj + 1) address 0 0,
            Event.setMemSpace (s.next_obj + 1) mem_space, Event.addMemAccessorToMap handle (s.next_obj + 1)], rfl, ?_⟩
          simp
        · simp only [hm, hf, ha, if_true, if_false, not_true_eq_false, not_false_eq_true,
            State.log]
          refine ⟨_, _, [Event.opNew (s.next_obj + 1) (.MemAccessor .file), Event.CreateFileAccessor (s.next_obj + 1) address 0 0,
            Event.setMemSpace (s.next_obj + 1) mem_space, Event.addMemAccessorToMap handle (s.next_obj + 1),
            Event.DestroyAccessor (s.next_obj + 1)], rfl, ?_⟩
          simp
    · simp only [hm, hf, if_true, if_false, not_true_eq_false, not_false_eq_true, State.log]
      refine ⟨_, _, [], rfl, ?_⟩
      simp [hf]
  · simp only [hm, if_true, if_false, not_true_eq_false, not_false_eq_true, State.log]
    refine ⟨_, _, [], rfl, ?_⟩
    simp [hm]

theorem buffer_creates_map (handle : dcd_tree_handle_t) (address mem_space mem_length : Nat)
    (env : MemAccEnv) (s : State) (dt : DecodeTree)
    (hh : handle ≠ C_API_INVALID_TREE_HANDLE) (ht : s.trees handle = some dt)
    (hno : dt.hasMemAccMapper = false) :
    MapCreatedFirst handle env s (ocsd_dt_add_buffer_mem_acc handle address mem_space mem_length env s) := by
  unfold MapCreatedFirst ocsd_dt_add_buffer_mem_acc
  simp only [hh, ht, ensure_mapper, hno, createMemAccMapper, create_accessor, new_nothrow,
    if_true, ne_eq, not_false_eq_true, Bool.not_false]
  by_cases hm : env.createMemAccMapper = .OCSD_OK
  · by_cases hf : env.createAccessor = .OCSD_OK
    · cases hc : env.castOk with
      | false =>
        simp only [hm, hf, if_true, if_false, not_true_eq_false, not_false_eq_true,
          Bool.false_eq_true, State.log]
        refine ⟨_, _, [Event.opNew (s.next_obj + 1) (.MemAccessor .buffer), Event.CreateBufferAccessor (s.next_obj + 1) address mem_length,
          Event.DestroyAccessor (s.next_obj + 1)], rfl, ?_⟩
        simp
      | true =>
        by_cases ha : env.addMemAccessorToMap = .OCSD_OK
        · simp only [hm, hf, ha, if_true, if_false, not_true_eq_false, not_false_eq_true,
            State.log]
          refine ⟨_, _, [Event.opNew (s.next_obj + 1) (.MemAccessor .buffer), Event.CreateBufferAccessor (s.next_obj + 1) address mem_length,
            Event.setMemSpace (s.next_obj + 1) mem_space, Event.addMemAccessorToMap handle (s.next_obj + 1)], rfl, ?_⟩
          simp
        · simp only [hm, hf, ha, if_true, if_false, not_true_eq_false, not_false_eq_true,
            State.log]
          refine ⟨_, _, [Event.opNew (s.next_obj + 1) (.MemAccessor .buffer), Event.CreateBufferAccessor (s.next_obj + 1) address mem_length,
            Event.setMemSpace (s.next_obj + 1) mem_space, Event.addMemAccessorToMap handle (s.next_obj + 1),
            Event.DestroyAccessor (s.next_obj + 1)], rfl, ?_⟩
          simp
    · simp only [hm, hf, if_true, if_false, not_true_eq_false, not_false_eq_true, State.log]
      refine ⟨_, _, [], rfl, ?_⟩
      simp [hf]
  · simp only [hm, if_true, if_false, not_true_eq_false, not_false_eq_true, State.log]
    refine ⟨_, _, [], rfl, ?_⟩
    simp [hm]

theorem callback_creates_map (handle : dcd_tree_handle_t) (st_address en_address mem_space : Nat)
    (env : MemAccEnv) (s : State) (dt : DecodeTree)
    (hh : handle ≠ C_API_INVALID_TREE_HANDLE) (ht : s.trees handle = some dt)
    (hno : dt.hasMemAccMapper = false) :
    MapCreatedFirst handle env s (ocsd_dt_add_callback_mem_acc handle st_address en_address mem_space env s) := by
  unfold MapCreatedFirst ocsd_dt_add_callback_mem_acc
  simp only [hh, ht, ensure_mapper, hno, createMemAccMapper, create_accessor, new_nothrow,
    if_true, ne_eq, not_false_eq_true, Bool.not_false]
  by_cases hm : env.createMemAccMapper = .OCSD_OK
  · by_cases hf : env.createAccessor = .OCSD_OK
    · cases hc : env.castOk with
      | false =>
        simp only [hm, hf, if_true, if_false, not_true_eq_false, not_false_eq_true,
          Bool.false_eq_true, State.log]
        refine ⟨_, _, [Event.opNew (s.next_obj + 1) (.MemAccessor .callback), Event.CreateCBAccessor (s.next_obj + 1) st_address en_address mem_space,
          Event.DestroyAccessor (s.next_obj + 1)], rfl, ?_⟩
        simp
      | true =>
        by_cases ha : env.addMemAccessorToMap = .OCSD_OK
        · simp only [hm, hf, ha, if_true, if_false, not_true_eq_false, not_false_eq_true,
            State.log]
          refine ⟨_, _, [Event.opNew (s.next_obj + 1) (.MemAccessor .callback), Event.CreateCBAccessor (s.next_obj + 1) st_address en_address mem_space,
            Event.setCBIfFn (s.next_obj + 1), Event.addMemAccessorToMap handle (s.next_obj + 1)], rfl, ?_⟩
          simp
        · simp only [hm, hf, ha, if_true, if_false, not_true_eq_false, not_false_eq_true,
            State.log]
          refine ⟨_, _, [Event.opNew (s.next_obj + 1) (.MemAccessor .callback), Event.CreateCBAccessor (s.next_obj + 1) st_address en_address mem_space,
            Event.setCBIfFn (s.next_obj + 1), Event.addMemAccessorToMap handle (s.next_obj + 1),
            Event.DestroyAccessor (s.next_obj + 1)], rfl, ?_⟩
          simp
    · simp only [hm, hf, if_true, if_false, not_true_eq_false, not_false_eq_true, State.log]
      refine ⟨_, _, [], rfl, ?_⟩
      simp [hf]
  · simp only [hm, if_true, if_false, not_true_eq_false, not_false_eq_true, State.log]
    refine ⟨_, _, [], rfl, ?_⟩
    simp [hm]

theorem binfile_region_creates_map (handle : dcd_tree_handle_t)
    (arr : List file_mem_region_t) (num_regions : Int) (mem_space : Nat)
    (env : MemAccEnv) (s : State) (dt : DecodeTree)
    (hh : handle ≠ C_API_INVALID_TREE_HANDLE) (ht : s.trees handle = some dt)
    (hnum : num_regions ≠ 0) (hpos : 0 < arr.length) (hlen : num_regions ≤ arr.length)
    (hno : dt.hasMemAccMapper = false) :
    MapCreatedFirst handle env s
      (ocsd_dt_add_binfile_region_mem_acc handle (some arr) num_regions mem_space env s) := by
  have hget : arr.get? 0 = some (arr.get ⟨0, hpos⟩) := List.get?_eq_get hpos
  have hfuel : 1 + (num_regions - ((1 : Nat) : Int)).toNat ≤ arr.length := by omega
  unfold MapCreatedFirst ocsd_dt_add_binfile_region_mem_acc
  simp only [hh, hnum, ht, ensure_mapper, hno, createMemAccMapper, create_accessor, new_nothrow,
    if_true, ne_eq, not_false_eq_true, Bool.not_false, and_self]
  by_cases hm : env.createMemAccMapper = .OCSD_OK
  · simp only [hm, if_true, hget]
    by_cases hf : env.createAccessor = .OCSD_OK
    · cases hc : env.castOk with
      | false =>
        simp only [hf, if_true, if_false, not_true_eq_false, not_false_eq_true,
          Bool.false_eq_true, State.log]
        refine ⟨_, _, [Event.readRegion 0, Event.opNew (s.next_obj + 1) (.MemAccessor .file),
          Event.CreateFileAccessor (s.next_obj + 1) (arr.get ⟨0, hpos⟩).start_address
            (arr.get ⟨0, hpos⟩).file_offset (arr.get ⟨0, hpos⟩).region_size,
          Event.DestroyAccessor (s.next_obj + 1)], rfl, ?_⟩
        simp
      | true =>
        simp only [hf, if_true]
        rw [add_offset_ranges_trace _ arr _ 1 _ hfuel]
        by_cases ha : env.addMemAccessorToMap = .OCSD_OK
        · simp only [ha, if_true, if_false, not_true_eq_false, not_false_eq_true, State.log]
          refine ⟨_, _, [Event.readRegion 0, Event.opNew (s.next_obj + 1) (.MemAccessor .file),
            Event.CreateFileAccessor (s.next_obj + 1) (arr.get ⟨0, hpos⟩).start_address
              (arr.get ⟨0, hpos⟩).file_offset (arr.get ⟨0, hpos⟩).region_size] ++
            offset_range_events (s.next_obj + 1) arr (num_regions - ((1 : Nat) : Int)).toNat 1 ++
            [Event.setMemSpace (s.next_obj + 1) mem_space,
              Event.addMemAccessorToMap handle (s.next_obj + 1)], rfl, ?_⟩
          simp
        · simp only [ha, if_true, if_false, not_true_eq_false, not_false_eq_true, State.log]
          refine ⟨_, _, [Event.readRegion 0, Event.opNew (s.next_obj + 1) (.MemAccessor .file),
            Event.CreateFileAccessor (s.next_obj + 1) (arr.get ⟨0, hpos⟩).start_address
              (arr.get ⟨0, hpos⟩).file_offset (arr.get ⟨0, hpos⟩).region_size] ++
            offset_range_events (s.next_obj + 1) arr (num_regions - ((1 : Nat) : Int)).toNat 1 ++
            [Event.setMemSpace (s.next_obj + 1) mem_space,
              Event.addMemAccessorToMap handle (s.next_obj + 1),
              Event.DestroyAccessor (s.next_obj + 1)], rfl, ?_⟩
          simp
    · simp only [hf, if_true, if_false, not_true_eq_false, not_false_eq_true, State.log]
      refine ⟨_, _, [Event.readRegion 0], rfl, ?_⟩
      simp [hf]
  · simp only [hm, if_true, if_false, not_true_eq_false, not_false_eq_true, State.log]
    refine ⟨_, _, [], rfl, ?_⟩
    simp [hm]

/-- C9, as stated, fails for the remove operation: on the live tree `1`, which
has no memory accessor map, `ocsd_dt_remove_mem_acc` (the map's removal would
return `OCSD_OK`) returns `OCSD_ERR_INVALID_PARAM_VAL`, makes no library call
at all (neither `createMemAccMapper` nor `removeMemAccessorByAddress`), and
the tree still has no map afterwards. -/
theorem C9_counterexample_remove_without_map :
    (ocsd_dt_remove_mem_acc 1 0x1000 0 .OCSD_OK stateWithTree).map
      (fun r => (r.1, (r.2.trees 1).map (fun d => d.hasMemAccMapper),
        r.2.trace.drop stateWithTree.trace.length))
      = some (.OCSD_ERR_INVALID_PARAM_VAL, some false, []) := by
  rfl

/-- C9, amended: on a live tree that has no memory accessor map, each of the
four add operations (add file, add file regions given a non-null array and a
non-zero count, add buffer, add callback) first calls `createMemAccMapper`;
if that succeeds the tree has a map afterwards and the operation delegates to
it, and if it fails its error is returned and nothing else is done.
`ocsd_dt_remove_mem_acc` on a tree without a map creates no map: it returns
`OCSD_ERR_INVALID_PARAM_VAL` and leaves the state unchanged; on a tree with a
map it returns the result of the map's own removal. -/
theorem C9_add_creates_map_remove_does_not (handle : dcd_tree_handle_t)
    (address st_address en_address mem_space mem_length : Nat)
    (arr : List file_mem_region_t) (num_regions : Int)
    (env : MemAccEnv) (removeRes : ocsd_err_t) (s : State) (dt : DecodeTree)
    (hh : handle ≠ C_API_INVALID_TREE_HANDLE) (ht : s.trees handle = some dt)
    (hnum : num_regions ≠ 0) (hpos : 0 < arr.length) (hlen : num_regions ≤ arr.length)
    (hno : dt.hasMemAccMapper = false) :
    MapCreatedFirst handle env s
      (ocsd_dt_add_binfile_mem_acc handle address mem_space env s) ∧
    MapCreatedFirst handle env s
      (ocsd_dt_add_binfile_region_mem_acc handle (some arr) num_regions mem_space env s) ∧
    MapCreatedFirst handle env s
      (ocsd_dt_add_buffer_mem_acc handle address mem_space mem_length env s) ∧
    MapCreatedFirst handle env s
      (ocsd_dt_add_callback_mem_acc handle st_address en_address mem_space env s) ∧
    ocsd_dt_remove_mem_acc handle st_address mem_space removeRes s
      = some (.OCSD_ERR_INVALID_PARAM_VAL, s) ∧
    (∀ (t : State) (dm : DecodeTree), t.trees handle = some dm → dm.hasMemAccMapper = true →
      ocsd_dt_remove_mem_acc handle st_address mem_space removeRes t
        = some (removeRes,
            t.log (Event.removeMemAccessorByAddress handle st_address mem_space))) := by
  refine ⟨binfile_creates_map handle address mem_space env s dt hh ht hno,
    binfile_region_creates_map handle arr num_regions mem_space env s dt hh ht hnum hpos hlen hno,
    buffer_creates_map handle address mem_space mem_length env s dt hh ht hno,
    callback_creates_map handle st_address en_address mem_space env s dt hh ht hno, ?_, ?_⟩
  · simp [ocsd_dt_remove_mem_acc, hh, ht, hno]
  · intro t dm htm hdm
    simp [ocsd_dt_remove_mem_acc, hh, htm, hdm]

/-- C9 amended, at a concrete input: the operations on the registered tree `1`,
which has no map, every library call succeeding. -/
theorem C9_add_creates_map_remove_does_not_witness :
    (1 : dcd_tree_handle_t) ≠ C_API_INVALID_TREE_HANDLE ∧
    stateWithTree.trees 1 = some { m_i_gen_elem_out := 0, hasMemAccMapper := false } ∧
    (2 : Int) ≠ 0 ∧ 0 < sampleRegions.length ∧ (2 : Int) ≤ sampleRegions.length ∧
    (MapCreatedFirst 1 memAccOk stateWithTree
      (ocsd_dt_add_binfile_mem_acc 1 0x1000 0 memAccOk stateWithTree) ∧
    MapCreatedFirst 1 memAccOk stateWithTree
      (ocsd_dt_add_binfile_region_mem_acc 1 (some sampleRegions) 2 0 memAccOk stateWithTree) ∧
    MapCreatedFirst 1 memAccOk stateWithTree
      (ocsd_dt_add_buffer_mem_acc 1 0x1000 0 0x100 memAccOk stateWithTree) ∧
    MapCreatedFirst 1 memAccOk stateWithTree
      (ocsd_dt_add_callback_mem_acc 1 0x1000 0x10ff 0 memAccOk stateWithTree) ∧
    ocsd_dt_remove_mem_acc 1 0x1000 0 .OCSD_OK stateWithTree
      = some (.OCSD_ERR_INVALID_PARAM_VAL, stateWithTree) ∧
    (∀ (t : State) (dm : DecodeTree), t.trees 1 = some dm → dm.hasMemAccMapper = true →
      ocsd_dt_remove_mem_acc 1 0x1000 0 .OCSD_OK t
        = some (.OCSD_OK, t.log (Event.removeMemAccessorByAddress 1 0x1000 0)))) :=
  ⟨by decide, rfl, by decide, by decide, by decide,
    C9_add_creates_map_remove_does_not 1 0x1000 0x1000 0x10ff 0 0x100 sampleRegions 2
      memAccOk .OCSD_OK stateWithTree _ (by decide) rfl (by decide) (by decide) (by decide) rfl⟩

/-- C10: for a protocol tag other than ETMV4I, ETMV3, STM and PTM, any packet
text, a non-null buffer with any prior contents and `buffer_size >= 2`,
`ocsd_pkt_str` returns `OCSD_ERR_NO_PROTOCOL` and the buffer then starts with
NUL (it holds the empty string), every other byte being as before; for a null
buffer or `buffer_size < 2`, whatever the protocol tag, it returns
`OCSD_ERR_INVALID_PARAM_VAL` and the buffer is not written. -/
theorem C10_pkt_str_unsupported_protocol (pkt_protocol : ocsd_trace_protocol_t)
    (printed : List Nat) (buf : CharBuf) (buffer_size : Int)
    (hp : pkt_protocol ∉ supportedProtocols) (hsz : 2 ≤ buffer_size) :
    (∃ out, ocsd_pkt_str pkt_protocol printed (some buf) buffer_size
        = (.OCSD_ERR_NO_PROTOCOL, some out) ∧
      out 0 = 0 ∧ ∀ i, i ≠ 0 → out i = buf i) ∧
    (∀ (q : ocsd_trace_protocol_t) (size : Int),
      ocsd_pkt_str q printed none size = (.OCSD_ERR_INVALID_PARAM_VAL, none)) ∧
    (∀ (q : ocsd_trace_protocol_t) (size : Int), size < 2 →
      ocsd_pkt_str q printed (some buf) size = (.OCSD_ERR_INVALID_PARAM_VAL, some buf)) := by
  refine ⟨?_, ?_, ?_⟩
  · refine ⟨buf_set buf 0 0, ?_, by simp [buf_set], ?_⟩
    · have hns : ¬ buffer_size < 2 := not_lt.mpr hsz
      cases hq : pkt_protocol <;> simp [hq, supportedProtocols] at hp
      simp [ocsd_pkt_str, hns]
    · intro i hi
      simp [buf_set, hi]
  · intro q size
    rfl
  · intro q size hlt
    simp [ocsd_pkt_str, hlt]

/-- C10 at a concrete input: protocol tag `other 9`, a packet text, the
unterminated `junkBuffer` and `buffer_size = 4`. -/
theorem C10_pkt_str_unsupported_protocol_witness :
    ocsd_trace_protocol_t.other 9 ∉ supportedProtocols ∧ (2 : Int) ≤ 4 ∧
    (∃ out, ocsd_pkt_str (.other 9) [0x49, 0x5f] (some junkBuffer) 4
        = (.OCSD_ERR_NO_PROTOCOL, some out) ∧
      out 0 = 0 ∧ ∀ i, i ≠ 0 → out i = junkBuffer i) :=
  ⟨by decide, by decide,
    (C10_pkt_str_unsupported_protocol (.other 9) [0x49, 0x5f] junkBuffer 4
      (by decide) (by decide)).1⟩

/-! ## Lemmas on the string copy -/

theorem takeWhile_ne_zero_eq_self (str : List Nat) (hnul : ∀ c ∈ str, c ≠ 0) :
    str.takeWhile (fun c => decide (c ≠ 0)) = str := by
  rw [List.takeWhile_eq_self_iff]
  intro c hc
  simpa using hnul c hc

/-- The buffer after `strncpy(buffer, str, m); buffer[m] = 0` for a text without
NUL: it holds the first `min |str| m` bytes of the text, then a NUL, and is
unchanged above index `m`. -/
theorem copy_then_terminate (buf : CharBuf) (str : List Nat) (m : Nat)
    (hnul : ∀ c ∈ str, c ≠ 0) :
    (∀ i, i < min str.length m → str.get? i = some (buf_set (strncpy buf str m) m 0 i)) ∧
    buf_set (strncpy buf str m) m 0 (min str.length m) = 0 ∧
    (∀ i, m < i → buf_set (strncpy buf str m) m 0 i = buf i) := by
  refine ⟨?_, ?_, ?_⟩
  · intro i hi
    have h1 : i < str.length := lt_of_lt_of_le hi (min_le_left _ _)
    have h2 : i < m := lt_of_lt_of_le hi (min_le_right _ _)
    have h3 : i ≠ m := Nat.ne_of_lt h2
    simp only [buf_set, strncpy, takeWhile_ne_zero_eq_self str hnul]
    simp [h2, h3, List.getD, List.getElem?_eq_getElem h1]
  · by_cases hle : m ≤ str.length
    · rw [min_eq_right hle]
      simp [buf_set]
    · have hlt : str.length < m := not_le.mp hle
      rw [min_eq_left (le_of_lt hlt)]
      have h3 : str.length ≠ m := Nat.ne_of_lt hlt
      simp only [buf_set, strncpy, takeWhile_ne_zero_eq_self str hnul]
      simp [hlt, h3, List.getD]
  · intro i hi
    have h3 : i ≠ m := Nat.ne_of_gt hi
    have h4 : ¬ i < m := not_lt.mpr (le_of_lt hi)
    simp [buf_set, strncpy, h3, h4]

/-- C11: for each of the four supported protocol tags, a non-null buffer,
`buffer_size = n >= 2` and a packet text `s` without NUL byte, `ocsd_pkt_str`
returns `OCSD_OK` (truncated or not) and the buffer then holds the first
`min(|s|, n-1)` bytes of `s` followed by a NUL byte, every byte at an index
`>= n` being as before the call. -/
theorem C11_pkt_str_truncates_and_terminates (pkt_protocol : ocsd_trace_protocol_t)
    (printed : List Nat) (buf : CharBuf) (buffer_size : Int)
    (hp : pkt_protocol ∈ supportedProtocols) (hsz : 2 ≤ buffer_size)
    (hnul : ∀ c ∈ printed, c ≠ 0) :
    ∃ out, ocsd_pkt_str pkt_protocol printed (some buf) buffer_size = (.OCSD_OK, some out) ∧
      (∀ i, i < min printed.length (buffer_size - 1).toNat → printed.get? i = some (out i)) ∧
      out (min printed.length (buffer_size - 1).toNat) = 0 ∧
      (∀ i : Nat, buffer_size ≤ (i : Int) → out i = buf i) := by
  have hns : ¬ buffer_size < 2 := not_lt.mpr hsz
  have hm : 1 ≤ (buffer_size - 1).toNat := by omega
  by_cases hlen : printed.length > 0
  · obtain ⟨h1, h2, h3⟩ :=
      copy_then_terminate (buf_set buf 0 0) printed (buffer_size - 1).toNat hnul
    refine ⟨buf_set (strncpy (buf_set buf 0 0) printed (buffer_size - 1).toNat)
      (buffer_size - 1).toNat 0, ?_, h1, h2, ?_⟩
    · simp only [supportedProtocols, List.mem_cons, List.mem_singleton, List.not_mem_nil,
        or_false] at hp
      rcases hp with hp | hp | hp | hp <;> subst hp <;> simp [ocsd_pkt_str, hns, hlen]
    · intro i hi
      have hgt : (buffer_size - 1).toNat < i := by omega
      have hi0 : i ≠ 0 := by omega
      rw [h3 i hgt]
      simp [buf_set, hi0]
  · have hnil : printed = [] := List.length_eq_zero.mp (by omega)
    subst hnil
    refine ⟨buf_set buf 0 0, ?_, ?_, ?_, ?_⟩
    · simp only [supportedProtocols, List.mem_cons, List.mem_singleton, List.not_mem_nil,
        or_false] at hp
      rcases hp with hp | hp | hp | hp <;> subst hp <;> simp [ocsd_pkt_str, hns]
    · intro i hi
      simp at hi
    · simp [buf_set]
    · intro i hi
      have hi0 : i ≠ 0 := by omega
      simp [buf_set, hi0]

/-- C11 at a concrete input: a PTM packet printed as "ABCDE" into the
unterminated `junkBuffer` with `buffer_size = 4`. -/
theorem C11_pkt_str_truncates_and_terminates_witness :
    ocsd_trace_protocol_t.OCSD_PROTOCOL_PTM ∈ supportedProtocols ∧ (2 : Int) ≤ 4 ∧
    (∀ c ∈ [0x41, 0x42, 0x43, 0x44, 0x45], c ≠ 0) ∧
    ∃ out, ocsd_pkt_str .OCSD_PROTOCOL_PTM [0x41, 0x42, 0x43, 0x44, 0x45] (some junkBuffer) 4
        = (.OCSD_OK, some out) ∧
      (∀ i, i < min [0x41, 0x42, 0x43, 0x44, 0x45].length ((4 : Int) - 1).toNat →
        [0x41, 0x42, 0x43, 0x44, 0x45].get? i = some (out i)) ∧
      out (min [0x41, 0x42, 0x43, 0x44, 0x45].length ((4 : Int) - 1).toNat) = 0 ∧
      (∀ i : Nat, (4 : Int) ≤ (i : Int) → out i = junkBuffer i) :=
  ⟨by decide, by decide, by decide,
    C11_pkt_str_truncates_and_terminates .OCSD_PROTOCOL_PTM [0x41, 0x42, 0x43, 0x44, 0x45]
      junkBuffer 4 (by decide) (by decide) (by decide)⟩

/-- C13, the code at the failing input: with the invalid handle (no live tree
behind it), `ocsd_dt_remove_decoder`, `ocsd_dt_attach_packet_callback`,
`ocsd_dt_set_gen_elem_outfn` (its allocation succeeding) and
`ocsd_dt_create_decoder` (decoder name and configuration accepted) each
dereference the null `DecodeTree` pointer, so no error code is returned
(`none`).  The other operations do check the handle: `ocsd_dt_process_data`
returns `OCSD_RESP_FATAL_NOT_INIT` and writes no byte count, the five memory
accessor operations return `OCSD_ERR_INVALID_PARAM_VAL`, and
`ocsd_destroy_dcd_tree` and `ocsd_tl_log_mapped_mem_ranges` return, all
without any library call. -/
theorem C13_invalid_handle_dereferenced :
    (ocsd_dt_remove_decoder C_API_INVALID_TREE_HANDLE .OCSD_OK stateWithTree).isNone = true ∧
    (ocsd_dt_attach_packet_callback C_API_INVALID_TREE_HANDLE 16 .OCSD_C_API_CB_PKT_SINK
      (mkAttachEnv .OCSD_PROTOCOL_ETMV4I true .OCSD_OK) stateWithTree).isNone = true ∧
    (ocsd_dt_set_gen_elem_outfn C_API_INVALID_TREE_HANDLE true stateWithTree).isNone = true ∧
    (ocsd_dt_create_decoder C_API_INVALID_TREE_HANDLE createDecoderOk stateWithTree).isNone
      = true ∧
    (ocsd_dt_process_data C_API_INVALID_TREE_HANDLE (.other 0, some 8) stateWithTree).map
      (fun r => (r.1, r.2.1, r.2.2.trace))
      = some (.OCSD_RESP_FATAL_NOT_INIT, none, stateWithTree.trace) ∧
    (ocsd_dt_add_binfile_mem_acc C_API_INVALID_TREE_HANDLE 0x1000 0 memAccOk stateWithTree).map
      (fun r => (r.1, r.2.trace)) = some (.OCSD_ERR_INVALID_PARAM_VAL, stateWithTree.trace) ∧
    (ocsd_dt_add_binfile_region_mem_acc C_API_INVALID_TREE_HANDLE (some sampleRegions) 2 0
      memAccOk stateWithTree).map
      (fun r => (r.1, r.2.trace)) = some (.OCSD_ERR_INVALID_PARAM_VAL, stateWithTree.trace) ∧
    (ocsd_dt_add_buffer_mem_acc C_API_INVALID_TREE_HANDLE 0x1000 0 0x100 memAccOk
      stateWithTree).map
      (fun r => (r.1, r.2.trace)) = some (.OCSD_ERR_INVALID_PARAM_VAL, stateWithTree.trace) ∧
    (ocsd_dt_add_callback_mem_acc C_API_INVALID_TREE_HANDLE 0x1000 0x10ff 0 memAccOk
      stateWithTree).map
      (fun r => (r.1, r.2.trace)) = some (.OCSD_ERR_INVALID_PARAM_VAL, stateWithTree.trace) ∧
    (ocsd_dt_remove_mem_acc C_API_INVALID_TREE_HANDLE 0x1000 0 .OCSD_OK stateWithTree).map
      (fun r => (r.1, r.2.trace)) = some (.OCSD_ERR_INVALID_PARAM_VAL, stateWithTree.trace) ∧
    (ocsd_destroy_dcd_tree C_API_INVALID_TREE_HANDLE stateWithTree).map (fun r => r.trace)
      = some stateWithTree.trace ∧
    (ocsd_tl_log_mapped_mem_ranges C_API_INVALID_TREE_HANDLE stateWithTree).map
      (fun r => r.trace) = some stateWithTree.trace :=
  ⟨rfl, rfl, rfl, rfl, rfl, rfl, rfl, rfl, rfl, rfl, rfl, rfl⟩

theorem registered_ranges_append (xs ys : List Event) :
    registered_ranges (xs ++ ys) = registered_ranges xs ++ registered_ranges ys := by
  induction xs with
  | nil => rfl
  | cons e rest ih => cases e <;> simp [registered_ranges, ih]

theorem region_reads_append (xs ys : List Event) :
    region_reads (xs ++ ys) = region_reads xs ++ region_reads ys := by
  induction xs with
  | nil => rfl
  | cons e rest ih => cases e <;> simp [region_reads, ih]

theorem map_adds_append (xs ys : List Event) :
    map_adds (xs ++ ys) = map_adds xs ++ map_adds ys := by
  induction xs with
  | nil => rfl
  | cons e rest ih => cases e <;> simp [map_adds, ih]

theorem new_objs_append (xs ys : List Event) :
    new_objs (xs ++ ys) = new_objs xs ++ new_objs ys := by
  induction xs with
  | nil => rfl
  | cons e rest ih => cases e <;> simp [new_objs, ih]

theorem mem_space_bindings_append (xs ys : List Event) :
    mem_space_bindings (xs ++ ys) = mem_space_bindings xs ++ mem_space_bindings ys := by
  induction xs with
  | nil => rfl
  | cons e rest ih => cases e <;> simp [mem_space_bindings, ih]

/-- The loop registers the regions `idx, idx + 1, ...` in array order, each
with its own start address, file offset and size. -/
theorem offset_range_events_registered (pAcc : ObjPtr) (arr : List file_mem_region_t)
    (fuel : Nat) : ∀ (idx : Nat), idx + fuel ≤ arr.length →
      registered_ranges (offset_range_events pAcc arr fuel idx)
        = ((arr.drop idx).take fuel).map (fun r => (pAcc, r)) := by
  induction fuel with
  | zero =>
    intro idx _
    simp [offset_range_events, registered_ranges]
  | succ n ih =>
    intro idx hle
    have hlt : idx < arr.length := by omega
    have hget : arr.get? idx = some (arr.get ⟨idx, hlt⟩) := List.get?_eq_get hlt
    have hdrop : arr.drop idx = arr.get ⟨idx, hlt⟩ :: arr.drop (idx + 1) := by
      simp
    simp only [offset_range_events, hget, registered_ranges]
    rw [ih (idx + 1) (by omega), hdrop, List.take_succ_cons, List.map_cons]

theorem offset_range_events_reads (pAcc : ObjPtr) (arr : List file_mem_region_t)
    (fuel : Nat) : ∀ (idx : Nat), idx + fuel ≤ arr.length →
      region_reads (offset_range_events pAcc arr fuel idx) = List.range' idx fuel := by
  induction fuel with
  | zero =>
    intro idx _
    simp [offset_range_events, region_reads]
  | succ n ih =>
    intro idx hle
    have hlt : idx < arr.length := by omega
    have hget : arr.get? idx = some (arr.get ⟨idx, hlt⟩) := List.get?_eq_get hlt
    simp only [offset_range_events, hget, region_reads]
    rw [ih (idx + 1) (by omega)]
    simp [List.range'_succ]

theorem offset_range_events_other (pAcc : ObjPtr) (arr : List file_mem_region_t)
    (fuel : Nat) : ∀ (idx : Nat),
      map_adds (offset_range_events pAcc arr fuel idx) = [] ∧
      new_objs (offset_range_events pAcc arr fuel idx) = [] ∧
      mem_space_bindings (offset_range_events pAcc arr fuel idx) = [] := by
  induction fuel with
  | zero =>
    intro idx
    simp [offset_range_events, map_adds, new_objs, mem_space_bindings]
  | succ n ih =>
    intro idx
    unfold offset_range_events
    cases arr.get? idx with
    | none => simp [map_adds, new_objs, mem_space_bindings]
    | some r => simp [map_adds, new_objs, mem_space_bindings, ih (idx + 1)]

/-- C12, as stated, fails for a negative count: with `num_regions = -1` on the
registered tree `1` and the two-entry `sampleRegions`, the call is not
rejected: it returns `OCSD_OK`, reads `region_array[0]`, registers that region
under a new file accessor and adds the accessor to the map. -/
theorem C12_counterexample_negative_count :
    (ocsd_dt_add_binfile_region_mem_acc 1 (some sampleRegions) (-1) 0 memAccOk
        stateWithTree).map
      (fun r => (r.1, region_reads r.2.trace, registered_ranges r.2.trace, map_adds r.2.trace))
      = some (.OCSD_OK, [0],
          [(1, { start_address := 0x1000, file_offset := 0, region_size := 0x100 })],
          [(1, 1)]) := by
  rfl

/-- C12, amended: for a region array with at least `n = num_regions >= 1`
entries, a valid handle of a live tree, and the map, the factory, the cast and
`addMemAccessorToMap` succeeding, `ocsd_dt_add_binfile_region_mem_acc` returns
`OCSD_OK` having allocated one single file accessor, registered under it
exactly the first `n` regions in array order, each with its own start address,
file offset and size, bound it to `mem_space`, added it to the map of the tree
exactly once, and read `region_array` exactly at the indices `0..n-1`.  A call
with the invalid handle, a null `region_array` or `num_regions = 0` returns
`OCSD_ERR_INVALID_PARAM_VAL` and leaves the state unchanged (nothing is
read). -/
theorem C12_regions_registered_in_order (handle : dcd_tree_handle_t)
    (arr : List file_mem_region_t) (num_regions : Int) (mem_space : Nat)
    (env : MemAccEnv) (s : State) (dt : DecodeTree)
    (hh : handle ≠ C_API_INVALID_TREE_HANDLE) (ht : s.trees handle = some dt)
    (h1 : 1 ≤ num_regions) (hlen : num_regions ≤ arr.length)
    (hmap : dt.hasMemAccMapper = true ∨ env.createMemAccMapper = .OCSD_OK)
    (hfac : env.createAccessor = .OCSD_OK) (hcast : env.castOk = true)
    (hadd : env.addMemAccessorToMap = .OCSD_OK) :
    (∃ s1 evs,
      ocsd_dt_add_binfile_region_mem_acc handle (some arr) num_regions mem_space env s
        = some (.OCSD_OK, s1) ∧
      s1.trace = s.trace ++ evs ∧
      registered_ranges evs = (arr.take num_regions.toNat).map (fun r => (s.next_obj + 1, r)) ∧
      region_reads evs = List.range num_regions.toNat ∧
      map_adds evs = [(handle, s.next_obj + 1)] ∧
      new_objs evs = [(s.next_obj + 1, .MemAccessor .file)] ∧
      mem_space_bindings evs = [(s.next_obj + 1, mem_space)]) ∧
    (∀ (ra : Option (List file_mem_region_t)) (n : Int) (e : MemAccEnv) (t : State),
      ocsd_dt_add_binfile_region_mem_acc C_API_INVALID_TREE_HANDLE ra n mem_space e t
        = some (.OCSD_ERR_INVALID_PARAM_VAL, t)) ∧
    (∀ (h : dcd_tree_handle_t) (n : Int) (e : MemAccEnv) (t : State),
      ocsd_dt_add_binfile_region_mem_acc h none n mem_space e t
        = some (.OCSD_ERR_INVALID_PARAM_VAL, t)) ∧
    (∀ (h : dcd_tree_handle_t) (ra : Option (List file_mem_region_t)) (e : MemAccEnv)
        (t : State),
      ocsd_dt_add_binfile_region_mem_acc h ra 0 mem_space e t
        = some (.OCSD_ERR_INVALID_PARAM_VAL, t)) := by
  refine ⟨?_, ?_, ?_, ?_⟩
  · obtain ⟨s0, hs0, hn0, ht0, -⟩ := ensure_mapper_ok handle dt env s hmap
    have hnum : num_regions ≠ 0 := by omega
    have hpos : 0 < arr.length := by omega
    have hget : arr.get? 0 = some (arr.get ⟨0, hpos⟩) := List.get?_eq_get hpos
    have hfuel : 1 + (num_regions - ((1 : Nat) : Int)).toNat ≤ arr.length := by omega
    obtain ⟨k, hk⟩ : ∃ k : Nat, num_regions.toNat = k + 1 := ⟨num_regions.toNat - 1, by omega⟩
    have hk2 : (num_regions - ((1 : Nat) : Int)).toNat = k := by omega
    unfold ocsd_dt_add_binfile_region_mem_acc
    simp only [hh, hnum, ht, hs0, hget, create_accessor, hfac, new_nothrow, if_true, ne_eq,
      not_false_eq_true, and_self, hcast]
    rw [add_offset_ranges_trace _ arr _ 1 _ hfuel]
    simp only [hadd, not_true_eq_false, if_false, State.log, hn0, ht0, hk2]
    refine ⟨_,
      (if dt.hasMemAccMapper = true then [] else [Event.createMemAccMapper handle]) ++
        ([Event.readRegion 0, Event.opNew (s.next_obj + 1) (.MemAccessor .file),
          Event.CreateFileAccessor (s.next_obj + 1) (arr.get ⟨0, hpos⟩).start_address
            (arr.get ⟨0, hpos⟩).file_offset (arr.get ⟨0, hpos⟩).region_size] ++
          (offset_range_events (s.next_obj + 1) arr k 1 ++
            [Event.setMemSpace (s.next_obj + 1) mem_space,
              Event.addMemAccessorToMap handle (s.next_obj + 1)])),
      rfl, by simp, ?_⟩
    have hfk : 1 + k ≤ arr.length := by omega
    have hreg := offset_range_events_registered (s.next_obj + 1) arr k 1 hfk
    have hreads := offset_range_events_reads (s.next_obj + 1) arr k 1 hfk
    obtain ⟨hma, hno, hms⟩ := offset_range_events_other (s.next_obj + 1) arr k 1
    have htake : arr.take (k + 1) = arr.get ⟨0, hpos⟩ :: (arr.drop 1).take k := by
      cases arr with
      | nil => simp at hpos
      | cons a tl => simp
    have hrange : List.range (k + 1) = 0 :: List.range' 1 k := by
      rw [List.range_eq_range', List.range'_succ]
    rw [hk, htake, hrange]
    cases dt.hasMemAccMapper <;>
      simp [registered_ranges_append, region_reads_append, map_adds_append, new_objs_append,
        mem_space_bindings_append, registered_ranges, region_reads, map_adds, new_objs,
        mem_space_bindings, hreg, hreads, hma, hno, hms]
  · intro ra n e t
    cases ra <;> simp [ocsd_dt_add_binfile_region_mem_acc]
  · intro h n e t
    rfl
  · intro h ra e t
    cases ra <;> simp [ocsd_dt_add_binfile_region_mem_acc]

/-- C12 amended, at a concrete input: the two regions of `sampleRegions` on the
registered tree `1`, every library call succeeding. -/
theorem C12_regions_registered_in_order_witness :
    (1 : dcd_tree_handle_t) ≠ C_API_INVALID_TREE_HANDLE ∧
    stateWithTree.trees 1 = some { m_i_gen_elem_out := 0, hasMemAccMapper := false } ∧
    (1 : Int) ≤ 2 ∧ (2 : Int) ≤ sampleRegions.length ∧
    memAccOk.createAccessor = .OCSD_OK ∧ memAccOk.castOk = true ∧
    memAccOk.addMemAccessorToMap = .OCSD_OK ∧
    ∃ s1 evs,
      ocsd_dt_add_binfile_region_mem_acc 1 (some sampleRegions) 2 0 memAccOk stateWithTree
        = some (.OCSD_OK, s1) ∧
      s1.trace = stateWithTree.trace ++ evs ∧
      registered_ranges evs
        = (sampleRegions.take (2 : Int).toNat).map (fun r => (stateWithTree.next_obj + 1, r)) ∧
      region_reads evs = List.range (2 : Int).toNat ∧
      map_adds evs = [(1, stateWithTree.next_obj + 1)] ∧
      new_objs evs = [(stateWithTree.next_obj + 1, .MemAccessor .file)] ∧
      mem_space_bindings evs = [(stateWithTree.next_obj + 1, 0)] :=
  ⟨by decide, rfl, by decide, by decide, rfl, rfl, rfl,
    (C12_regions_registered_in_order 1 sampleRegions 2 0 memAccOk stateWithTree _
      (by decide) rfl (by decide) (by decide) (Or.inr rfl) rfl rfl rfl).1⟩

end OpenCSD
